import Mathlib

/-!
# grab_gray_image: one grey frame from an IEEE-1394 camera, saved as a PGM file

A shallow embedding of `examples/grab_gray_image.c`.  The program is a single
sequential, deterministic procedure that talks to the camera library and to
the C runtime.  Whatever the library does, one run of the program receives one
answer at each call it makes, and these answers determine the run.  The
embedding is therefore a pure function from an environment `Env` (one answer
per call site, indexed by the loop counter where the call sits in a loop) to
an `Outcome`: the ordered trace of the calls the program makes, each tagged
with its source line, and the way the process ends.  A statement proved for
every `Env` holds for every behaviour of the library.

An out-parameter is modelled by the value the variable holds after the call.
A read outside an array ends the run in `Status.undefined`.
-/

namespace GrabGrayImage

/-! ## Types of the camera library used by the program -/

/-- Modelled from the spec: the result type `dc1394error_t` of the library
calls (its header is not part of the sources); the spec speaks of "a single
success sentinel", every other value is a failure. -/
inductive dc1394error_t
  | DC1394_SUCCESS
  | DC1394_FAILURE (code : Nat)
  deriving DecidableEq, Repr

/-- Modelled from the spec: the switch type `dc1394switch_t` (its header is
not part of the sources), the "transmission on/off flag". -/
inductive dc1394switch_t
  | DC1394_OFF
  | DC1394_ON
  deriving DecidableEq, Repr

/-- Modelled from the spec: the pixel encodings `dc1394color_coding_t` (the
header is not part of the sources); the program only tells the 8-bit
grey encoding apart from all others. -/
inductive dc1394color_coding_t
  | DC1394_COLOR_CODING_MONO8
  | DC1394_COLOR_CODING_OTHER (code : Nat)
  deriving DecidableEq, Repr

/-- Modelled from the spec: the bus speeds `dc1394speed_t` (the header is not
part of the sources); the program only ever passes the 400 Mb/s constant. -/
inductive dc1394speed_t
  | DC1394_ISO_SPEED_400
  deriving DecidableEq, Repr

/-- Modelled from the spec: the dequeue policy (the header is not part of the
sources); the program only ever passes the blocking policy. -/
inductive dc1394capture_policy_t
  | DC1394_CAPTURE_POLICY_WAIT
  deriving DecidableEq, Repr

/-- Modelled from the spec: the capture flags (the header is not part of the
sources); the program only ever passes the default flags. -/
inductive dc1394capture_flags_t
  | DC1394_CAPTURE_FLAGS_DEFAULT
  deriving DecidableEq, Repr

/-- A video mode is a C enumeration value; `main` initialises it to `0`. -/
abbrev dc1394video_mode_t := Nat

/-- A frame rate is a C enumeration value. -/
abbrev dc1394framerate_t := Nat

/-- Camera handle: the only field the program reads is the 64-bit GUID. -/
structure dc1394camera_t where
  guid : Nat
  deriving DecidableEq, Repr

/-- One entry of the enumerated camera list. -/
structure dc1394camera_id_t where
  guid : Nat
  deriving DecidableEq, Repr

/-- Camera list: a count and the array `ids` it describes. -/
structure dc1394camera_list_t where
  num : Nat
  ids : List dc1394camera_id_t
  deriving DecidableEq, Repr

/-- Supported video modes: an unsigned 32-bit count and the array `modes`. -/
structure dc1394video_modes_t where
  num : Nat
  modes : List dc1394video_mode_t
  deriving DecidableEq, Repr

/-- Supported frame rates: an unsigned 32-bit count and the array
`framerates`. -/
structure dc1394framerates_t where
  num : Nat
  framerates : List dc1394framerate_t
  deriving DecidableEq, Repr

/-- Captured frame: the program only reads the `image` buffer. -/
structure dc1394video_frame_t where
  image : List Nat
  deriving DecidableEq, Repr

/-! ## Machine arithmetic -/

/-- Value of `n - 1` computed in unsigned 32-bit arithmetic. -/
def uint32_pred (n : Nat) : Nat := (n + 4294967295) % 4294967296

/-- Conversion of an unsigned 32-bit value to `int` (two's complement). -/
def to_int (u : Nat) : Int := if u < 2147483648 then (u : Int) else (u : Int) - 4294967296

/-- Value of `a * b` computed in unsigned 32-bit arithmetic. -/
def uint32_mul (a b : Nat) : Nat := (a * b) % 4294967296

/-- Output of the `PRIx64` conversion: lower-case hexadecimal digits. -/
def hex (n : Nat) : String := String.mk (Nat.toDigits 16 n)

/-! ## Observable calls -/

/-- The three streams the program writes text to. -/
inductive Stream
  | stderr
  | stdout
  | imagefile
  deriving DecidableEq, Repr

/-- A call made by the program, with its arguments and the answer it got. -/
inductive Call
  | dc1394_new
  | dc1394_camera_enumerate (r : dc1394error_t)
  | dc1394_camera_new (guid : Nat) (camera : Option dc1394camera_t)
  | dc1394_camera_free_list
  | dc1394_video_get_supported_modes (camera : dc1394camera_t) (r : dc1394error_t)
  | dc1394_is_video_mode_scalable (mode : dc1394video_mode_t) (b : Bool)
  | dc1394_get_color_coding_from_video_mode (camera : dc1394camera_t)
      (mode : dc1394video_mode_t) (r : dc1394error_t) (coding : dc1394color_coding_t)
  | dc1394_video_get_supported_framerates (camera : dc1394camera_t)
      (mode : dc1394video_mode_t) (r : dc1394error_t)
  | dc1394_video_set_iso_speed (camera : dc1394camera_t) (speed : dc1394speed_t)
      (r : dc1394error_t)
  | dc1394_video_set_mode (camera : dc1394camera_t) (mode : dc1394video_mode_t)
      (r : dc1394error_t)
  | dc1394_video_set_framerate (camera : dc1394camera_t) (framerate : dc1394framerate_t)
      (r : dc1394error_t)
  | dc1394_capture_setup (camera : dc1394camera_t) (num_dma_buffers : Nat)
      (flags : dc1394capture_flags_t) (r : dc1394error_t)
  | dc1394_feature_get_all (camera : dc1394camera_t) (r : dc1394error_t)
  | dc1394_feature_print_all
  | dc1394_video_set_transmission (camera : dc1394camera_t) (pwr : dc1394switch_t)
      (r : dc1394error_t)
  | dc1394_video_get_transmission (camera : dc1394camera_t) (r : dc1394error_t)
      (status : dc1394switch_t)
  | dc1394_capture_dequeue (camera : dc1394camera_t) (policy : dc1394capture_policy_t)
      (r : dc1394error_t)
  | dc1394_get_image_size_from_video_mode (camera : dc1394camera_t)
      (mode : dc1394video_mode_t) (r : dc1394error_t) (width height : Nat)
  | dc1394_capture_stop (camera : dc1394camera_t) (r : dc1394error_t)
  | dc1394_camera_free (camera : dc1394camera_t)
  | dc1394_free
  | fprintf (stream : Stream) (text : String)
  | printf (text : String)
  | perror (text : String)
  | usleep (usec : Nat)
  | fopen (name : String) (mode : String) (ok : Bool)
  | fwrite (data : List Nat) (size : Nat) (nmemb : Nat) (stream : Stream)
  | fclose (stream : Stream)
  deriving DecidableEq, Repr

/-- A call together with the source line it is made from. -/
structure Event where
  line : Nat
  call : Call
  deriving DecidableEq, Repr

/-- How the process ends: with an exit status, or in undefined behaviour
(an array read outside the array). -/
inductive Status
  | exit (code : Int)
  | undefined
  deriving DecidableEq, Repr

/-- Result of running the program: what it did and how it ended. -/
structure Outcome where
  trace : List Event
  status : Status
  deriving DecidableEq, Repr

/-- Result of running a loop: what it did, and either the values of the
variables it leaves behind or the way the process ended inside it. -/
structure Run (α : Type) where
  trace : List Event
  next : Except Status α

/-- Answers of the camera library and of the C runtime during one run, one
field per call site. -/
structure Env where
  /-- line 55 -/
  dc1394_camera_enumerate : dc1394error_t × dc1394camera_list_t
  /-- line 65, `none` is the null handle -/
  dc1394_camera_new : Option dc1394camera_t
  /-- line 80 -/
  dc1394_video_get_supported_modes : dc1394error_t × dc1394video_modes_t
  /-- line 87 -/
  dc1394_is_video_mode_scalable : dc1394video_mode_t → Bool
  /-- line 88: the answer, and the value `coding` holds afterwards, for the
  call made at loop index `i` -/
  select_color_coding : Int → dc1394error_t × dc1394color_coding_t
  /-- line 100 -/
  dc1394_get_color_coding_from_video_mode : dc1394error_t × dc1394color_coding_t
  /-- line 107 -/
  dc1394_video_get_supported_framerates : dc1394error_t × dc1394framerates_t
  /-- line 118 -/
  dc1394_video_set_iso_speed : dc1394error_t
  /-- line 119 -/
  dc1394_video_set_mode : dc1394error_t
  /-- line 120 -/
  dc1394_video_set_framerate : dc1394error_t
  /-- line 121 -/
  dc1394_capture_setup : dc1394error_t
  /-- line 133 -/
  dc1394_feature_get_all : dc1394error_t
  /-- line 145 -/
  start_transmission : dc1394error_t
  /-- line 159: the answer, and the value `status` holds afterwards, for the
  poll made when the counter `i` has the given value -/
  dc1394_video_get_transmission : Int → dc1394error_t × dc1394switch_t
  /-- line 174 -/
  dc1394_capture_dequeue : dc1394error_t × dc1394video_frame_t
  /-- line 183 -/
  stop_transmission : dc1394error_t
  /-- line 190, `false` is the null stream -/
  fopen : Bool
  /-- line 197: the answer and the values `width`, `height` hold afterwards -/
  dc1394_get_image_size_from_video_mode : dc1394error_t × Nat × Nat
  /-- line 206 -/
  close_transmission : dc1394error_t
  /-- line 207 -/
  dc1394_capture_stop : dc1394error_t
  /-- line 32 -/
  cleanup_transmission : dc1394error_t
  /-- line 33 -/
  cleanup_capture_stop : dc1394error_t

open dc1394error_t dc1394switch_t dc1394color_coding_t dc1394speed_t
open dc1394capture_policy_t dc1394capture_flags_t

/-- Perform the events `es`, then go on as `o`. -/
def emit (es : List Event) (o : Outcome) : Outcome :=
  ⟨es ++ o.trace, o.status⟩

/-- Perform the events `es`, then go on with the loop run `r`. -/
def Run.emitThen {α : Type} (es : List Event) (r : Run α) : Run α :=
  ⟨es ++ r.trace, r.next⟩

/-- The process ends inside the loop as `o` does. -/
def Run.halt {α : Type} (o : Outcome) : Run α :=
  ⟨o.trace, .error o.status⟩

/-- After the loop run `r`, go on as `k` says from the variables it left. -/
def Run.andThen {α : Type} (r : Run α) (k : α → Outcome) : Outcome :=
  match r.next with
  | .error s => ⟨r.trace, s⟩
  | .ok a => emit r.trace (k a)

/-! ## The program -/

/-- Lines 30-36: releases the camera and exits with status 1. -/
def cleanup_and_exit (env : Env) (camera : dc1394camera_t) : Outcome :=
  ⟨[⟨32, .dc1394_video_set_transmission camera DC1394_OFF env.cleanup_transmission⟩,
    ⟨33, .dc1394_capture_stop camera env.cleanup_capture_stop⟩,
    ⟨34, .dc1394_camera_free camera⟩],
   .exit 1⟩

/-- Lines 86-94: the loop `for (i = ...; i >= 0; i--)` that looks for a
non-scalable 8-bit grey mode, started with the given `video_mode` and `i`;
it leaves `i` and `video_mode` behind. -/
def select_mode (env : Env) (camera : dc1394camera_t) (video_modes : dc1394video_modes_t)
    (video_mode : dc1394video_mode_t) (i : Int) : Run (Int × dc1394video_mode_t) :=
  if 0 ≤ i then
    match video_modes.modes[i.toNat]? with
    | none => ⟨[], .error .undefined⟩
    | some m =>
      if !env.dc1394_is_video_mode_scalable m then
        -- `coding` now holds `(env.select_color_coding i).2`
        if (env.select_color_coding i).2 = DC1394_COLOR_CODING_MONO8 then
          ⟨[⟨87, .dc1394_is_video_mode_scalable m false⟩,
            ⟨88, .dc1394_get_color_coding_from_video_mode camera m
                   (env.select_color_coding i).1 (env.select_color_coding i).2⟩],
           .ok (i, m)⟩
        else
          Run.emitThen
            [⟨87, .dc1394_is_video_mode_scalable m false⟩,
             ⟨88, .dc1394_get_color_coding_from_video_mode camera m
                    (env.select_color_coding i).1 (env.select_color_coding i).2⟩]
            (select_mode env camera video_modes video_mode (i - 1))
      else
        Run.emitThen [⟨87, .dc1394_is_video_mode_scalable m true⟩]
          (select_mode env camera video_modes video_mode (i - 1))
  else ⟨[], .ok (i, video_mode)⟩
termination_by (i + 1).toNat
decreasing_by all_goals omega

/-- Lines 157-163: the loop `while (status == DC1394_OFF && i++ < 5)` that
waits for the transmission to be on, started with the given `status` and
`i`; it leaves `status` and `i` behind. -/
def wait_transmission (env : Env) (camera : dc1394camera_t)
    (status : dc1394switch_t) (i : Int) : Run (dc1394switch_t × Int) :=
  if status = DC1394_OFF then
    if i < 5 then
      -- `i++ < 5` held for the old value; `i` is now one more
      Run.emitThen
        [⟨158, .usleep 50000⟩,
         ⟨159, .dc1394_video_get_transmission camera
                 (env.dc1394_video_get_transmission (i + 1)).1
                 (env.dc1394_video_get_transmission (i + 1)).2⟩]
        (if (env.dc1394_video_get_transmission (i + 1)).1 ≠ DC1394_SUCCESS then
          Run.halt (emit [⟨160, .fprintf .stderr "unable to get transmision status\n"⟩]
            (cleanup_and_exit env camera))
        else
          wait_transmission env camera (env.dc1394_video_get_transmission (i + 1)).2 (i + 1))
    else
      -- `i++ < 5` failed for the old value; `i` is still incremented
      ⟨[], .ok (status, i + 1)⟩
  else
    -- `status == DC1394_OFF` failed: `i++` is not evaluated
    ⟨[], .ok (status, i)⟩
termination_by (5 - i).toNat
decreasing_by omega

/-- Lines 190-211: writes the frame to `image.pgm`, closes the camera and
returns 0. -/
def main_save (env : Env) (camera : dc1394camera_t) (video_mode : dc1394video_mode_t)
    (frame : dc1394video_frame_t) : Outcome :=
  emit [⟨190, .fopen "image.pgm" "wb" env.fopen⟩] <|
  if env.fopen = false then
    emit [⟨193, .perror "Can\x27t create \x27image.pgm\x27"⟩] (cleanup_and_exit env camera)
  else
    let width := env.dc1394_get_image_size_from_video_mode.2.1 % 4294967296
    let height := env.dc1394_get_image_size_from_video_mode.2.2 % 4294967296
    ⟨[⟨197, .dc1394_get_image_size_from_video_mode camera video_mode
              env.dc1394_get_image_size_from_video_mode.1 width height⟩,
      ⟨198, .fprintf .imagefile ("P5\n" ++ Nat.repr width ++ " " ++ Nat.repr height ++ " 255\n")⟩,
      ⟨199, .fwrite frame.image 1 (uint32_mul height width) .imagefile⟩,
      ⟨200, .fclose .imagefile⟩,
      ⟨201, .printf "wrote: image.pgm\n"⟩,
      ⟨206, .dc1394_video_set_transmission camera DC1394_OFF env.close_transmission⟩,
      ⟨207, .dc1394_capture_stop camera env.dc1394_capture_stop⟩,
      ⟨208, .dc1394_camera_free camera⟩,
      ⟨209, .dc1394_free⟩],
     .exit 0⟩

/-- Lines 165-185: after the wait loop has left `status` and `i` behind,
gives up if `i == 5`, else captures one frame and stops the transmission. -/
def main_after_wait (env : Env) (camera : dc1394camera_t) (video_mode : dc1394video_mode_t)
    (si : dc1394switch_t × Int) : Outcome :=
  if si.2 = 5 then
    emit [⟨166, .fprintf .stderr "Camera doesn\x27t seem to want to turn on!\n"⟩]
      (cleanup_and_exit env camera)
  else
    emit [⟨170, .fprintf .stderr "capture\n"⟩,
          ⟨174, .dc1394_capture_dequeue camera DC1394_CAPTURE_POLICY_WAIT
                  env.dc1394_capture_dequeue.1⟩] <|
    if env.dc1394_capture_dequeue.1 ≠ DC1394_SUCCESS then
      emit [⟨175, .fprintf .stderr "unable to capture a frame\n"⟩] (cleanup_and_exit env camera)
    else
      emit ([⟨179, .fprintf .stderr "stop transmission\n"⟩,
             ⟨183, .dc1394_video_set_transmission camera DC1394_OFF env.stop_transmission⟩] ++
            (if env.stop_transmission ≠ DC1394_SUCCESS then
              [⟨184, .printf "couldn\x27t stop the camera?\n"⟩]
             else [])) <|
      main_save env camera video_mode env.dc1394_capture_dequeue.2

/-- Lines 150-163 and, through `main_after_wait`, up to line 185: waits for
the transmission to be on, starting from `status = DC1394_OFF` and `i = 0`. -/
def main_capture (env : Env) (camera : dc1394camera_t) (video_mode : dc1394video_mode_t) :
    Outcome :=
  emit [⟨150, .fprintf .stderr "wait transmission\n"⟩] <|
  (wait_transmission env camera DC1394_OFF 0).andThen (main_after_wait env camera video_mode)

/-- Lines 100-148: checks the colour coding, picks the frame rate, sets up
the capture, reports the features and starts the transmission. -/
def main_setup (env : Env) (camera : dc1394camera_t) (video_mode : dc1394video_mode_t) :
    Outcome :=
  emit [⟨100, .dc1394_get_color_coding_from_video_mode camera video_mode
                env.dc1394_get_color_coding_from_video_mode.1
                env.dc1394_get_color_coding_from_video_mode.2⟩] <|
  if env.dc1394_get_color_coding_from_video_mode.1 ≠ DC1394_SUCCESS then
    emit [⟨102, .fprintf .stderr "Can\x27t get color coding\n"⟩] (cleanup_and_exit env camera)
  else
  emit [⟨107, .dc1394_video_get_supported_framerates camera video_mode
                env.dc1394_video_get_supported_framerates.1⟩] <|
  if env.dc1394_video_get_supported_framerates.1 ≠ DC1394_SUCCESS then
    emit [⟨108, .fprintf .stderr "Can\x27t get framrates\n"⟩] (cleanup_and_exit env camera)
  else
  -- framerate = framerates.framerates[framerates.num - 1]
  match env.dc1394_video_get_supported_framerates.2.framerates[
      uint32_pred env.dc1394_video_get_supported_framerates.2.num]? with
  | none => ⟨[], .undefined⟩
  | some framerate =>
  emit [⟨116, .fprintf .stderr "Setting capture\n"⟩,
        ⟨118, .dc1394_video_set_iso_speed camera DC1394_ISO_SPEED_400
                env.dc1394_video_set_iso_speed⟩,
        ⟨119, .dc1394_video_set_mode camera video_mode env.dc1394_video_set_mode⟩,
        ⟨120, .dc1394_video_set_framerate camera framerate env.dc1394_video_set_framerate⟩,
        ⟨121, .dc1394_capture_setup camera 4 DC1394_CAPTURE_FLAGS_DEFAULT
                env.dc1394_capture_setup⟩] <|
  if env.dc1394_capture_setup ≠ DC1394_SUCCESS then
    -- `__LINE__` is 126; `__FILE__` is taken to be the file name
    emit [⟨122, .fprintf .stderr
            ("unable to setup camera-\ncheck line 126 of grab_gray_image.c to make sure\n" ++
             "that the video mode and framerate are\nsupported by your camera\n")⟩]
      (cleanup_and_exit env camera)
  else
  emit ([⟨133, .dc1394_feature_get_all camera env.dc1394_feature_get_all⟩] ++
        (if env.dc1394_feature_get_all ≠ DC1394_SUCCESS then
          [⟨134, .fprintf .stderr "unable to get feature set\n"⟩]
         else [⟨137, .dc1394_feature_print_all⟩]) ++
        [⟨141, .fprintf .stderr "start transmission\n"⟩,
         ⟨145, .dc1394_video_set_transmission camera DC1394_ON env.start_transmission⟩]) <|
  if env.start_transmission ≠ DC1394_SUCCESS then
    emit [⟨146, .fprintf .stderr "unable to start camera iso transmission\n"⟩]
      (cleanup_and_exit env camera)
  else
    main_capture env camera video_mode

/-- Lines 95-98: after the selection loop has left `i` and `video_mode`
behind, gives up if `i < 0`, else goes on with the selected mode. -/
def main_after_select (env : Env) (camera : dc1394camera_t)
    (iv : Int × dc1394video_mode_t) : Outcome :=
  if iv.1 < 0 then
    emit [⟨96, .fprintf .stderr "Could not get a valid MONO8 mode\n"⟩]
      (cleanup_and_exit env camera)
  else
    main_setup env camera iv.2

/-- Lines 38-94 and, through `main_after_select`, the rest of `main`: opens
the first camera and selects the video mode, the loop starting from
`video_mode = 0` and `i = video_modes.num - 1`. -/
def main (env : Env) : Outcome :=
  emit [⟨54, .dc1394_new⟩,
        ⟨55, .dc1394_camera_enumerate env.dc1394_camera_enumerate.1⟩] <|
  if env.dc1394_camera_enumerate.1 ≠ DC1394_SUCCESS then
    ⟨[⟨56, .fprintf .stderr "Failed to enumerate cameras\n"⟩], .exit 1⟩
  else if env.dc1394_camera_enumerate.2.num = 0 then
    ⟨[⟨61, .fprintf .stderr "No cameras found\n"⟩], .exit 1⟩
  else
  -- list->ids[0]
  match env.dc1394_camera_enumerate.2.ids[0]? with
  | none => ⟨[], .undefined⟩
  | some id0 =>
  emit [⟨65, .dc1394_camera_new id0.guid env.dc1394_camera_new⟩] <|
  match env.dc1394_camera_new with
  | none =>
    ⟨[⟨67, .fprintf .stderr
            ("Failed to initialize camera with guid " ++ hex id0.guid ++ "\n")⟩],
     .exit 1⟩
  | some camera =>
  emit [⟨71, .dc1394_camera_free_list⟩,
        ⟨73, .printf ("Using camera with GUID " ++ hex camera.guid ++ "\n")⟩,
        ⟨80, .dc1394_video_get_supported_modes camera
               env.dc1394_video_get_supported_modes.1⟩] <|
  if env.dc1394_video_get_supported_modes.1 ≠ DC1394_SUCCESS then
    emit [⟨81, .fprintf .stderr "Can\x27t get video modes\n"⟩] (cleanup_and_exit env camera)
  else
  (select_mode env camera env.dc1394_video_get_supported_modes.2 0
      (to_int (uint32_pred env.dc1394_video_get_supported_modes.2.num))).andThen
    (main_after_select env camera)

/-! ## Vocabulary of the properties -/

/-- The two events of one turn of the wait loop. -/
def poll_events (camera : dc1394camera_t) (p : dc1394error_t × dc1394switch_t) : List Event :=
  [⟨158, .usleep 50000⟩, ⟨159, .dc1394_video_get_transmission camera p.1 p.2⟩]

/-- What the wait loop adds to the trace when a poll fails. -/
def poll_failure_events (env : Env) (camera : dc1394camera_t) : List Event :=
  ⟨160, .fprintf .stderr "unable to get transmision status\n"⟩ :: (cleanup_and_exit env camera).trace

/-- The call fails and `main` compares its answer with the success value
(or, for `dc1394_camera_new`, with the null handle). -/
def checked_failure (e : Event) : Bool :=
  match e.call with
  | .dc1394_camera_enumerate r => decide (r ≠ DC1394_SUCCESS)
  | .dc1394_camera_new _ camera => camera.isNone
  | .dc1394_video_get_supported_modes _ r => decide (r ≠ DC1394_SUCCESS)
  | .dc1394_get_color_coding_from_video_mode _ _ r _ =>
      decide (e.line = 100 ∧ r ≠ DC1394_SUCCESS)
  | .dc1394_video_get_supported_framerates _ _ r => decide (r ≠ DC1394_SUCCESS)
  | .dc1394_capture_setup _ _ _ r => decide (r ≠ DC1394_SUCCESS)
  | .dc1394_video_set_transmission _ _ r => decide (e.line = 145 ∧ r ≠ DC1394_SUCCESS)
  | .dc1394_video_get_transmission _ r _ => decide (r ≠ DC1394_SUCCESS)
  | .dc1394_capture_dequeue _ _ r => decide (r ≠ DC1394_SUCCESS)
  | _ => false

/-- Calls that can be made before the output file is opened and outside
`cleanup_and_exit`; a `dc1394_camera_new` event carries the handle the
library gave. -/
def early (env : Env) (e : Event) : Bool :=
  match e.call with
  | .dc1394_new => true
  | .dc1394_camera_enumerate _ => true
  | .dc1394_camera_new _ camera => decide (camera = env.dc1394_camera_new)
  | .dc1394_camera_free_list => true
  | .dc1394_video_get_supported_modes _ _ => true
  | .dc1394_is_video_mode_scalable _ _ => true
  | .dc1394_get_color_coding_from_video_mode _ _ _ _ => true
  | .dc1394_video_get_supported_framerates _ _ _ => true
  | .dc1394_video_set_iso_speed _ _ _ => true
  | .dc1394_video_set_mode _ _ _ => true
  | .dc1394_video_set_framerate _ _ _ => true
  | .dc1394_capture_setup _ _ _ _ => true
  | .dc1394_feature_get_all _ _ => true
  | .dc1394_feature_print_all => true
  | .dc1394_video_set_transmission _ _ _ => decide (e.line = 145 ∨ e.line = 183)
  | .dc1394_video_get_transmission _ _ _ => true
  | .dc1394_capture_dequeue _ _ _ => true
  | .fprintf .stderr _ => true
  | .printf _ => true
  | .usleep _ => true
  | _ => false

/-- The three ways a part of `main` that owns the camera handle can end:
in undefined behaviour before any checked call failed, in
`cleanup_and_exit` before the output file is opened, or by reaching the
file-saving part with every checked call so far successful (`ok`). -/
def Classified (env : Env) (camera : dc1394camera_t) (ok : Prop) (o : Outcome) : Prop :=
  (∃ pre, o = ⟨pre, .undefined⟩ ∧ ∀ e ∈ pre, early env e = true ∧ checked_failure e = false) ∨
  (∃ pre, o = emit pre (cleanup_and_exit env camera) ∧ ∀ e ∈ pre, early env e = true) ∨
  (∃ pre video_mode,
    o = emit pre (main_save env camera video_mode env.dc1394_capture_dequeue.2) ∧ ok ∧
    ∀ e ∈ pre, early env e = true ∧ checked_failure e = false)

/-- Every checked call of lines 100-185 succeeded. -/
def setup_ok (env : Env) : Prop :=
  env.dc1394_get_color_coding_from_video_mode.1 = DC1394_SUCCESS ∧
  env.dc1394_video_get_supported_framerates.1 = DC1394_SUCCESS ∧
  env.dc1394_capture_setup = DC1394_SUCCESS ∧
  env.start_transmission = DC1394_SUCCESS ∧
  env.dc1394_capture_dequeue.1 = DC1394_SUCCESS

/-- Every checked call of `main` succeeded. -/
def all_checked_ok (env : Env) : Prop :=
  env.dc1394_camera_enumerate.1 = DC1394_SUCCESS ∧
  env.dc1394_camera_new ≠ none ∧
  env.dc1394_video_get_supported_modes.1 = DC1394_SUCCESS ∧
  setup_ok env

/-- The event writes to the image file. -/
def writes_imagefile (e : Event) : Bool :=
  match e.call with
  | .fprintf .imagefile _ => true
  | .fwrite _ _ _ .imagefile => true
  | _ => false

/-- The byte counts `size * nmemb` of the `fwrite` calls of a trace. -/
def payload_requests (t : List Event) : List Nat :=
  t.filterMap fun e =>
    match e.call with
    | .fwrite _ size nmemb _ => some (size * nmemb)
    | _ => none

/-- The call is a call into the camera library (not into the C runtime). -/
def is_library_call (c : Call) : Bool :=
  match c with
  | .fprintf _ _ => false
  | .printf _ => false
  | .perror _ => false
  | .usleep _ => false
  | .fopen _ _ _ => false
  | .fwrite _ _ _ _ => false
  | .fclose _ => false
  | _ => true

/-- The calls into the camera library made in a trace, in order. -/
def library_calls (t : List Event) : List Call :=
  (t.map Event.call).filter is_library_call

/-- The entry `j` of the mode list is a non-scalable mode whose colour
coding the library reports as 8-bit grey (during the selection loop). -/
def mono8_candidate (env : Env) (video_modes : dc1394video_modes_t) (j : Nat) : Prop :=
  ∃ m, video_modes.modes[j]? = some m ∧
    env.dc1394_is_video_mode_scalable m = false ∧
    (env.select_color_coding (j : Int)).2 = DC1394_COLOR_CODING_MONO8

/-! ## Concrete environments -/

/-- A run in which every call succeeds: one camera, three video modes of
which the last is scalable and the middle one is 8-bit grey, two frame
rates, transmission on at the first poll, a 3 x 2 image. -/
def env_ok : Env where
  dc1394_camera_enumerate := (DC1394_SUCCESS, ⟨1, [⟨2989⟩]⟩)
  dc1394_camera_new := some ⟨2989⟩
  dc1394_video_get_supported_modes := (DC1394_SUCCESS, ⟨3, [64, 69, 88]⟩)
  dc1394_is_video_mode_scalable := fun m => decide (88 ≤ m)
  select_color_coding := fun i =>
    if i = 1 then (DC1394_SUCCESS, DC1394_COLOR_CODING_MONO8)
    else (DC1394_SUCCESS, DC1394_COLOR_CODING_OTHER 0)
  dc1394_get_color_coding_from_video_mode := (DC1394_SUCCESS, DC1394_COLOR_CODING_MONO8)
  dc1394_video_get_supported_framerates := (DC1394_SUCCESS, ⟨2, [34, 35]⟩)
  dc1394_video_set_iso_speed := DC1394_SUCCESS
  dc1394_video_set_mode := DC1394_SUCCESS
  dc1394_video_set_framerate := DC1394_SUCCESS
  dc1394_capture_setup := DC1394_SUCCESS
  dc1394_feature_get_all := DC1394_SUCCESS
  start_transmission := DC1394_SUCCESS
  dc1394_video_get_transmission := fun _ => (DC1394_SUCCESS, DC1394_ON)
  dc1394_capture_dequeue := (DC1394_SUCCESS, ⟨[10, 20, 30, 40, 50, 60]⟩)
  stop_transmission := DC1394_SUCCESS
  fopen := true
  dc1394_get_image_size_from_video_mode := (DC1394_SUCCESS, 3, 2)
  close_transmission := DC1394_SUCCESS
  dc1394_capture_stop := DC1394_SUCCESS
  cleanup_transmission := DC1394_SUCCESS
  cleanup_capture_stop := DC1394_SUCCESS

/-- As `env_ok`, but the video mode is reported to be 65536 x 65536. -/
def env_wide : Env :=
  { env_ok with dc1394_get_image_size_from_video_mode := (DC1394_SUCCESS, 65536, 65536) }

/-- As `env_ok`, but every call whose answer `main` does not compare with
the success value fails. -/
def env_unchecked_fail : Env :=
  { env_ok with
    select_color_coding := fun i =>
      if i = 1 then (DC1394_FAILURE 1, DC1394_COLOR_CODING_MONO8)
      else (DC1394_FAILURE 1, DC1394_COLOR_CODING_OTHER 0)
    dc1394_video_set_iso_speed := DC1394_FAILURE 1
    dc1394_video_set_mode := DC1394_FAILURE 1
    dc1394_video_set_framerate := DC1394_FAILURE 1
    dc1394_feature_get_all := DC1394_FAILURE 1
    stop_transmission := DC1394_FAILURE 1
    dc1394_get_image_size_from_video_mode := (DC1394_FAILURE 1, 3, 2)
    close_transmission := DC1394_FAILURE 1
    dc1394_capture_stop := DC1394_FAILURE 1 }

/-- As `env_ok`, but every poll succeeds and reports the transmission off. -/
def env_never_on : Env :=
  { env_ok with dc1394_video_get_transmission := fun _ => (DC1394_SUCCESS, DC1394_OFF) }

/-- As `env_ok`, but the transmission is first reported on at the fifth
poll. -/
def env_on_fifth : Env :=
  { env_ok with
    dc1394_video_get_transmission := fun i =>
      (DC1394_SUCCESS, if i = 5 then DC1394_ON else DC1394_OFF) }

/-- As `env_ok`, but the library reports success and no frame rate at all
(`num = 0`, the eight array slots hold no valid entry). -/
def env_no_framerates : Env :=
  { env_ok with
    dc1394_video_get_supported_framerates := (DC1394_SUCCESS, ⟨0, [0, 0, 0, 0, 0, 0, 0, 0]⟩) }

/-- As `env_ok`, but `dc1394_capture_setup` fails. -/
def env_setup_fails : Env :=
  { env_ok with dc1394_capture_setup := DC1394_FAILURE 1 }

/-- As `env_ok`, but no video mode is an 8-bit grey one. -/
def env_no_mono8 : Env :=
  { env_ok with select_color_coding := fun _ => (DC1394_SUCCESS, DC1394_COLOR_CODING_OTHER 0) }

/-- As `env`, but the six calls whose answer `main` does not act on return
the given results; the values they leave in their out-parameters are kept. -/
def with_unchecked (env : Env) (r_iso r_mode r_rate r_feat r_stop r_size : dc1394error_t) : Env :=
  { env with
    dc1394_video_set_iso_speed := r_iso
    dc1394_video_set_mode := r_mode
    dc1394_video_set_framerate := r_rate
    dc1394_feature_get_all := r_feat
    stop_transmission := r_stop
    dc1394_get_image_size_from_video_mode := (r_size, env.dc1394_get_image_size_from_video_mode.2) }

/-- The source lines a run goes through, in order, the three messages apart
that only report the result of an unchecked call (lines 134, 137, 184). -/
def executed_lines (o : Outcome) : List Nat :=
  (o.trace.map Event.line).filter fun l => decide (l ≠ 134 ∧ l ≠ 137 ∧ l ≠ 184)

/-- Two environments give the same answers at every call other than the six
unchecked ones and the two closing calls of lines 206-207. -/
structure Agree (env' env : Env) : Prop where
  enumerate : env'.dc1394_camera_enumerate = env.dc1394_camera_enumerate
  camera_new : env'.dc1394_camera_new = env.dc1394_camera_new
  modes : env'.dc1394_video_get_supported_modes = env.dc1394_video_get_supported_modes
  scalable : env'.dc1394_is_video_mode_scalable = env.dc1394_is_video_mode_scalable
  select_coding : env'.select_color_coding = env.select_color_coding
  coding : env'.dc1394_get_color_coding_from_video_mode =
    env.dc1394_get_color_coding_from_video_mode
  framerates : env'.dc1394_video_get_supported_framerates =
    env.dc1394_video_get_supported_framerates
  capture_setup : env'.dc1394_capture_setup = env.dc1394_capture_setup
  start : env'.start_transmission = env.start_transmission
  polls : env'.dc1394_video_get_transmission = env.dc1394_video_get_transmission
  dequeue : env'.dc1394_capture_dequeue = env.dc1394_capture_dequeue
  fopen : env'.fopen = env.fopen
  cleanup_transmission : env'.cleanup_transmission = env.cleanup_transmission
  cleanup_capture_stop : env'.cleanup_capture_stop = env.cleanup_capture_stop

/-- Two outcomes end the same way after going through the same lines. -/
def Same (o' o : Outcome) : Prop :=
  o'.status = o.status ∧ executed_lines o' = executed_lines o

/-! ## Basic facts -/

@[simp] theorem emit_trace (es : List Event) (o : Outcome) : (emit es o).trace = es ++ o.trace := rfl
@[simp] theorem emit_status (es : List Event) (o : Outcome) : (emit es o).status = o.status := rfl
@[simp] theorem emitThen_trace {α : Type} (es : List Event) (r : Run α) :
    (Run.emitThen es r).trace = es ++ r.trace := rfl
@[simp] theorem emitThen_next {α : Type} (es : List Event) (r : Run α) :
    (Run.emitThen es r).next = r.next := rfl
@[simp] theorem halt_trace {α : Type} (o : Outcome) : (Run.halt o : Run α).trace = o.trace := rfl
@[simp] theorem halt_next {α : Type} (o : Outcome) : (Run.halt o : Run α).next = .error o.status := rfl

theorem wait_transmission_spec (env : Env) (camera : dc1394camera_t)
    (status : dc1394switch_t) (i : Int) :
    ∃ polls : List (dc1394error_t × dc1394switch_t),
      polls.length ≤ (5 - i).toNat ∧
      (polls ≠ [] → status = DC1394_OFF) ∧
      (∀ p ∈ polls.dropLast, p = (DC1394_SUCCESS, DC1394_OFF)) ∧
      (((wait_transmission env camera status i).next = .error (.exit 1) ∧
          (wait_transmission env camera status i).trace
            = polls.flatMap (poll_events camera) ++ poll_failure_events env camera ∧
          ∃ p, polls.getLast? = some p ∧ p.1 ≠ DC1394_SUCCESS) ∨
       (∃ s j, (wait_transmission env camera status i).next = .ok (s, j) ∧
          (wait_transmission env camera status i).trace = polls.flatMap (poll_events camera) ∧
          (∀ p ∈ polls, p.1 = DC1394_SUCCESS) ∧
          j = i + polls.length + (if s = DC1394_OFF then 1 else 0) ∧
          s = (polls.getLast?.map Prod.snd).getD status)) := by
  induction status, i using wait_transmission.induct env camera with
  | case1 i hi ih =>
    rw [wait_transmission]
    simp only [if_true, hi]
    by_cases hr : (env.dc1394_video_get_transmission (i + 1)).1 = DC1394_SUCCESS
    · obtain ⟨polls, hlen, hne, hpre, hcases⟩ := ih
      refine ⟨env.dc1394_video_get_transmission (i + 1) :: polls, ?_, ?_, ?_, ?_⟩
      · simp only [List.length_cons]; omega
      · simp
      · intro p hp
        cases polls with
        | nil => simp at hp
        | cons q qs =>
          rw [List.dropLast_cons₂, List.mem_cons] at hp
          rcases hp with hp | hp
          · subst hp
            exact Prod.ext hr (hne (by simp))
          · exact hpre p hp
      · simp only [hr, ne_eq, not_true_eq_false, if_false, emitThen_trace, emitThen_next,
          List.flatMap_cons, List.append_assoc]
        rcases hcases with ⟨hnext, htrace, p, hlast, hp⟩ | ⟨s, j, hnext, htrace, hall, hj, hs⟩
        · left
          refine ⟨hnext, ?_, p, ?_, hp⟩
          · rw [htrace]; simp [poll_events, hr]
          · cases polls with
            | nil => simp at hlast
            | cons q qs => simpa [List.getLast?_cons_cons] using hlast
        · right
          refine ⟨s, j, hnext, ?_, ?_, ?_, ?_⟩
          · rw [htrace]; simp [poll_events, hr]
          · intro p hp
            rcases List.mem_cons.mp hp with hp | hp
            · subst hp; exact hr
            · exact hall p hp
          · rw [hj]; simp only [List.length_cons]; push_cast; ring
          · cases polls with
            | nil => simpa using hs
            | cons q qs => simpa [List.getLast?_cons_cons] using hs
    · refine ⟨[env.dc1394_video_get_transmission (i + 1)], ?_, ?_, ?_, ?_⟩
      · simp; omega
      · simp
      · simp
      · left
        simp [hr, poll_events, poll_failure_events, cleanup_and_exit]
  | case2 i hi =>
    refine ⟨[], ?_⟩
    rw [wait_transmission]
    simp only [hi, if_true, if_false]
    simp only [List.length_nil, Nat.zero_le, ne_eq, not_true_eq_false, false_implies,
      List.dropLast_nil, List.not_mem_nil, List.flatMap_nil, List.nil_append, List.getLast?_nil,
      Option.map_none', Option.getD_none, true_and, reduceCtorEq, false_and, exists_false,
      Except.ok.injEq, Prod.mk.injEq, Nat.cast_zero, add_zero, implies_true, and_false, false_or]
    exact ⟨_, _, ⟨rfl, rfl⟩, by simp, rfl⟩
  | case3 status i hs =>
    refine ⟨[], ?_⟩
    rw [wait_transmission]
    simp only [hs, if_false]
    simp only [List.length_nil, Nat.zero_le, ne_eq, not_true_eq_false, false_implies,
      List.dropLast_nil, List.not_mem_nil, List.flatMap_nil, List.nil_append, List.getLast?_nil,
      Option.map_none', Option.getD_none, true_and, reduceCtorEq, false_and, exists_false,
      Except.ok.injEq, Prod.mk.injEq, Nat.cast_zero, add_zero, implies_true, and_false, false_or]
    exact ⟨_, _, ⟨rfl, rfl⟩, by simp [hs], rfl⟩

/-- Every event of the mode-selection loop is a scalability test (line 87) or
a colour-coding query (line 88). -/
theorem select_mode_events (env : Env) (camera : dc1394camera_t)
    (video_modes : dc1394video_modes_t) (video_mode : dc1394video_mode_t) (i : Int) :
    ∀ e ∈ (select_mode env camera video_modes video_mode i).trace,
      (∃ m b, e = ⟨87, .dc1394_is_video_mode_scalable m b⟩) ∨
      (∃ m r c, e = ⟨88, .dc1394_get_color_coding_from_video_mode camera m r c⟩) := by
  induction i using select_mode.induct env camera video_modes video_mode with
  | case1 x hx hnone =>
    rw [select_mode]; simp [hx, hnone]
  | case2 x hx m hm hs hc =>
    rw [select_mode]; simp only [hx, hm, hs, hc, if_true]
    intro e he
    simp only [List.mem_cons, List.mem_singleton, List.not_mem_nil, or_false] at he
    rcases he with he | he
    · exact Or.inl ⟨_, _, he⟩
    · exact Or.inr ⟨_, _, _, he⟩
  | case3 x hx m hm hs hc ih =>
    rw [select_mode]; simp only [hx, hm, hs, hc, if_true, if_false, emitThen_trace]
    intro e he
    simp only [List.mem_append, List.mem_cons, List.mem_singleton, List.not_mem_nil,
      or_false] at he
    rcases he with (he | he) | he
    · exact Or.inl ⟨_, _, he⟩
    · exact Or.inr ⟨_, _, _, he⟩
    · exact ih e he
  | case4 x hx m hm hs ih =>
    rw [select_mode]
    simp only [Bool.not_eq_true', Bool.not_eq_false] at hs
    simp only [hx, hm, hs, Bool.not_true, Bool.false_eq_true, if_true, if_false, emitThen_trace]
    intro e he
    simp only [List.mem_append, List.mem_cons, List.mem_singleton, List.not_mem_nil,
      or_false] at he
    rcases he with he | he
    · exact Or.inl ⟨_, _, he⟩
    · exact ih e he
  | case5 x hx =>
    rw [select_mode]; simp [hx]

theorem emit_mk (es fs : List Event) (s : Status) : emit es ⟨fs, s⟩ = ⟨es ++ fs, s⟩ := rfl

theorem emit_emit (es fs : List Event) (o : Outcome) : emit es (emit fs o) = emit (es ++ fs) o := by
  simp [emit]

theorem poll_events_lines (camera : dc1394camera_t)
    (polls : List (dc1394error_t × dc1394switch_t)) :
    ∀ e ∈ polls.flatMap (poll_events camera),
      e = ⟨158, .usleep 50000⟩ ∨ ∃ r s, e = ⟨159, .dc1394_video_get_transmission camera r s⟩ := by
  intro e he
  simp only [List.mem_flatMap, poll_events, List.mem_cons, List.mem_singleton, List.not_mem_nil,
    or_false] at he
  obtain ⟨p, _, hp | hp⟩ := he
  · exact Or.inl hp
  · exact Or.inr ⟨_, _, hp⟩

theorem wait_cases (env : Env) (camera : dc1394camera_t) :
    ∃ polls : List (dc1394error_t × dc1394switch_t),
      polls.length ≤ 5 ∧
      (((wait_transmission env camera DC1394_OFF 0).next = .error (.exit 1) ∧
          (wait_transmission env camera DC1394_OFF 0).trace
            = polls.flatMap (poll_events camera) ++ poll_failure_events env camera ∧
          ∃ p ∈ polls, p.1 ≠ DC1394_SUCCESS) ∨
       (∃ s j, (wait_transmission env camera DC1394_OFF 0).next = .ok (s, j) ∧
          (wait_transmission env camera DC1394_OFF 0).trace = polls.flatMap (poll_events camera) ∧
          (∀ p ∈ polls, p.1 = DC1394_SUCCESS))) := by
  obtain ⟨polls, hlen, -, -, h⟩ := wait_transmission_spec env camera DC1394_OFF 0
  refine ⟨polls, by simpa using hlen, ?_⟩
  rcases h with ⟨h1, h2, p, hp, hne⟩ | ⟨s, j, h1, h2, h3, -⟩
  · exact Or.inl ⟨h1, h2, p, List.mem_of_getLast?_eq_some hp, hne⟩
  · exact Or.inr ⟨s, j, h1, h2, h3⟩

theorem Classified.emit {env : Env} {camera : dc1394camera_t} {ok ok' : Prop} {o : Outcome}
    (es : List Event) (h : Classified env camera ok o) (hok : ok → ok')
    (hes : ∀ e ∈ es, early env e = true ∧ checked_failure e = false) :
    Classified env camera ok' (GrabGrayImage.emit es o) := by
  rcases h with ⟨pre, rfl, hpre⟩ | ⟨pre, rfl, hpre⟩ | ⟨pre, vm, rfl, hk, hpre⟩
  · refine Or.inl ⟨es ++ pre, rfl, ?_⟩
    intro e he
    rcases List.mem_append.mp he with he | he
    · exact hes e he
    · exact hpre e he
  · refine Or.inr (Or.inl ⟨es ++ pre, emit_emit _ _ _, ?_⟩)
    intro e he
    rcases List.mem_append.mp he with he | he
    · exact (hes e he).1
    · exact hpre e he
  · refine Or.inr (Or.inr ⟨es ++ pre, vm, emit_emit _ _ _, hok hk, ?_⟩)
    intro e he
    rcases List.mem_append.mp he with he | he
    · exact hes e he
    · exact hpre e he

theorem Classified.cleanup {env : Env} {camera : dc1394camera_t} {ok : Prop}
    (es : List Event) (hes : ∀ e ∈ es, early env e = true) :
    Classified env camera ok (GrabGrayImage.emit es (cleanup_and_exit env camera)) :=
  Or.inr (Or.inl ⟨es, rfl, hes⟩)

theorem Classified.undefined {env : Env} {camera : dc1394camera_t} {ok : Prop} :
    Classified env camera ok ⟨[], .undefined⟩ :=
  Or.inl ⟨[], rfl, by simp⟩

theorem main_after_wait_classified (env : Env) (camera : dc1394camera_t)
    (video_mode : dc1394video_mode_t) (si : dc1394switch_t × Int) :
    Classified env camera (env.dc1394_capture_dequeue.1 = DC1394_SUCCESS)
      (main_after_wait env camera video_mode si) := by
  unfold main_after_wait
  split_ifs with h1 h2 h3
  · exact Classified.cleanup _ (by simp [early])
  · rw [emit_emit]
    exact Classified.cleanup _ (by simp [early])
  all_goals
    simp only [ne_eq, not_not] at h2
    rw [emit_emit]
    exact Or.inr (Or.inr ⟨_, video_mode, rfl, h2, by simp [early, checked_failure, h2]⟩)

theorem poll_events_early (env : Env) (camera : dc1394camera_t)
    (polls : List (dc1394error_t × dc1394switch_t)) :
    ∀ e ∈ polls.flatMap (poll_events camera), early env e = true := by
  intro e he
  rcases poll_events_lines camera polls e he with rfl | ⟨r, s, rfl⟩ <;> simp [early]

theorem poll_events_checked (camera : dc1394camera_t)
    (polls : List (dc1394error_t × dc1394switch_t))
    (h : ∀ p ∈ polls, p.1 = DC1394_SUCCESS) :
    ∀ e ∈ polls.flatMap (poll_events camera), checked_failure e = false := by
  intro e he
  simp only [List.mem_flatMap, poll_events, List.mem_cons, List.mem_singleton, List.not_mem_nil,
    or_false] at he
  obtain ⟨p, hp, rfl | rfl⟩ := he
  · simp [checked_failure]
  · simp [checked_failure, h p hp]

theorem main_capture_classified (env : Env) (camera : dc1394camera_t)
    (video_mode : dc1394video_mode_t) :
    Classified env camera (env.dc1394_capture_dequeue.1 = DC1394_SUCCESS)
      (main_capture env camera video_mode) := by
  unfold main_capture Run.andThen
  obtain ⟨polls, -, h⟩ := wait_cases env camera
  rcases h with ⟨hnext, htrace, -⟩ | ⟨s, j, hnext, htrace, hall⟩
  · rw [hnext, htrace]
    have : (⟨polls.flatMap (poll_events camera) ++ poll_failure_events env camera, .exit 1⟩ : Outcome)
        = GrabGrayImage.emit (polls.flatMap (poll_events camera) ++
            [⟨160, .fprintf .stderr "unable to get transmision status\n"⟩])
            (cleanup_and_exit env camera) := by
      simp [GrabGrayImage.emit, poll_failure_events, cleanup_and_exit]
    simp only [this, emit_emit]
    refine Classified.cleanup _ ?_
    intro e he
    simp only [List.mem_append, List.mem_cons, List.mem_singleton, List.not_mem_nil,
      or_false, List.nil_append] at he
    rcases he with rfl | he | rfl
    · simp [early]
    · exact poll_events_early env camera polls e he
    · simp [early]
  · rw [hnext, htrace]
    simp only [emit_emit]
    refine Classified.emit _ (main_after_wait_classified env camera video_mode (s, j)) id ?_
    intro e he
    simp only [List.mem_append, List.mem_cons, List.mem_singleton, List.not_mem_nil,
      or_false, List.nil_append] at he
    rcases he with rfl | he
    · simp [early, checked_failure]
    · exact ⟨poll_events_early env camera polls e he, poll_events_checked camera polls hall e he⟩

theorem main_setup_classified (env : Env) (camera : dc1394camera_t)
    (video_mode : dc1394video_mode_t) :
    Classified env camera (setup_ok env) (main_setup env camera video_mode) := by
  unfold main_setup
  by_cases h1 : env.dc1394_get_color_coding_from_video_mode.1 = DC1394_SUCCESS
  swap
  · simp only [ne_eq, h1, not_false_eq_true, if_true, emit_emit]
    exact Classified.cleanup _ (by simp [early])
  by_cases h2 : env.dc1394_video_get_supported_framerates.1 = DC1394_SUCCESS
  swap
  · simp only [ne_eq, h1, h2, not_true_eq_false, not_false_eq_true, if_true, if_false, emit_emit]
    exact Classified.cleanup _ (by simp [early])
  simp only [ne_eq, h1, h2, not_true_eq_false, if_false, emit_emit]
  split
  · exact Classified.emit _ Classified.undefined id (by simp [early, checked_failure])
  by_cases h3 : env.dc1394_capture_setup = DC1394_SUCCESS
  swap
  · simp only [h3, not_false_eq_true, if_true, emit_emit]
    exact Classified.cleanup _ (by simp [early])
  by_cases h4 : env.start_transmission = DC1394_SUCCESS
  swap
  · simp only [h3, h4, not_true_eq_false, not_false_eq_true, if_true, if_false, emit_emit]
    refine Classified.cleanup _ ?_
    split_ifs <;> simp [early]
  simp only [h3, h4, not_true_eq_false, if_false, emit_emit]
  refine Classified.emit _ (main_capture_classified env camera video_mode)
    (fun h => ⟨h1, h2, h3, h4, h⟩) ?_
  split_ifs <;> simp [early, checked_failure]

theorem select_mode_next (env : Env) (camera : dc1394camera_t)
    (video_modes : dc1394video_modes_t) (video_mode : dc1394video_mode_t) (i : Int) (st : Status)
    (h : (select_mode env camera video_modes video_mode i).next = .error st) :
    st = .undefined := by
  induction i using select_mode.induct env camera video_modes video_mode with
  | case1 x hx hnone =>
    rw [select_mode] at h
    simp only [hx, hnone, if_true] at h
    cases h; rfl
  | case2 x hx m hm hs hc =>
    rw [select_mode] at h
    simp [hx, hm, hs, hc] at h
  | case3 x hx m hm hs hc ih =>
    rw [select_mode] at h
    simp only [hx, hm, hs, hc, if_true, if_false, emitThen_next] at h
    exact ih h
  | case4 x hx m hm hs ih =>
    rw [select_mode] at h
    simp only [Bool.not_eq_true', Bool.not_eq_false] at hs
    simp only [hx, hm, hs, Bool.not_true, Bool.false_eq_true, if_true, if_false,
      emitThen_next] at h
    exact ih h
  | case5 x hx =>
    rw [select_mode] at h
    simp [hx] at h

theorem select_mode_early (env : Env) (camera : dc1394camera_t)
    (video_modes : dc1394video_modes_t) (video_mode : dc1394video_mode_t) (i : Int) :
    ∀ e ∈ (select_mode env camera video_modes video_mode i).trace,
      early env e = true ∧ checked_failure e = false := by
  intro e he
  rcases select_mode_events env camera video_modes video_mode i e he with
    ⟨m, b, rfl⟩ | ⟨m, r, c, rfl⟩ <;> simp [early, checked_failure]

theorem main_after_select_classified (env : Env) (camera : dc1394camera_t)
    (iv : Int × dc1394video_mode_t) :
    Classified env camera (setup_ok env) (main_after_select env camera iv) := by
  unfold main_after_select
  split_ifs
  · exact Classified.cleanup _ (by simp [early])
  · exact main_setup_classified env camera iv.2

theorem andThen_error {α : Type} (r : Run α) (k : α → Outcome) (s : Status)
    (h : r.next = .error s) : r.andThen k = ⟨r.trace, s⟩ := by
  unfold Run.andThen; rw [h]

theorem andThen_ok {α : Type} (r : Run α) (k : α → Outcome) (a : α)
    (h : r.next = .ok a) : r.andThen k = emit r.trace (k a) := by
  unfold Run.andThen; rw [h]

/-- The ways `main` can end. -/
theorem main_classified (env : Env) :
    (env.dc1394_camera_enumerate.1 ≠ DC1394_SUCCESS ∧
      main env = ⟨[⟨54, .dc1394_new⟩,
        ⟨55, .dc1394_camera_enumerate env.dc1394_camera_enumerate.1⟩,
        ⟨56, .fprintf .stderr "Failed to enumerate cameras\n"⟩], .exit 1⟩) ∨
    (env.dc1394_camera_enumerate.2.num = 0 ∧
      main env = ⟨[⟨54, .dc1394_new⟩, ⟨55, .dc1394_camera_enumerate DC1394_SUCCESS⟩,
        ⟨61, .fprintf .stderr "No cameras found\n"⟩], .exit 1⟩) ∨
    (main env = ⟨[⟨54, .dc1394_new⟩, ⟨55, .dc1394_camera_enumerate DC1394_SUCCESS⟩],
        .undefined⟩) ∨
    (∃ guid, main env = ⟨[⟨54, .dc1394_new⟩, ⟨55, .dc1394_camera_enumerate DC1394_SUCCESS⟩,
        ⟨65, .dc1394_camera_new guid none⟩,
        ⟨67, .fprintf .stderr ("Failed to initialize camera with guid " ++ hex guid ++ "\n")⟩],
        .exit 1⟩) ∨
    (∃ camera, env.dc1394_camera_new = some camera ∧
      Classified env camera (all_checked_ok env) (main env)) := by
  unfold main
  by_cases h1 : env.dc1394_camera_enumerate.1 = DC1394_SUCCESS
  swap
  · refine Or.inl ⟨h1, ?_⟩
    simp only [ne_eq, h1, not_false_eq_true, if_true, emit_mk]
    rfl
  by_cases h2 : env.dc1394_camera_enumerate.2.num = 0
  · refine Or.inr (Or.inl ⟨h2, ?_⟩)
    simp only [ne_eq, h1, h2, not_true_eq_false, if_true, if_false, emit_mk]
    rfl
  simp only [ne_eq, h1, h2, not_true_eq_false, if_false]
  rcases hid : env.dc1394_camera_enumerate.2.ids[0]? with _ | id0
  · exact Or.inr (Or.inr (Or.inl rfl))
  simp only []
  rcases hcam : env.dc1394_camera_new with _ | camera
  · exact Or.inr (Or.inr (Or.inr (Or.inl ⟨id0.guid, rfl⟩)))
  refine Or.inr (Or.inr (Or.inr (Or.inr ⟨camera, rfl, ?_⟩)))
  dsimp only
  by_cases h3 : env.dc1394_video_get_supported_modes.1 = DC1394_SUCCESS
  swap
  · rw [if_pos h3, emit_emit, emit_emit, emit_emit]
    refine Classified.cleanup _ ?_
    intro e he
    simp only [List.mem_append, List.mem_cons, List.mem_singleton, List.not_mem_nil,
      or_false, or_assoc] at he
    rcases he with rfl | rfl | rfl | rfl | rfl | rfl | rfl <;> simp [early, hcam]
  rw [if_neg (not_not.mpr h3)]
  have hsel := select_mode_early env camera env.dc1394_video_get_supported_modes.2 0
    (to_int (uint32_pred env.dc1394_video_get_supported_modes.2.num))
  have hnext := select_mode_next env camera env.dc1394_video_get_supported_modes.2 0
    (to_int (uint32_pred env.dc1394_video_get_supported_modes.2.num))
  generalize select_mode env camera env.dc1394_video_get_supported_modes.2 0
    (to_int (uint32_pred env.dc1394_video_get_supported_modes.2.num)) = sel at hsel hnext ⊢
  have hok : setup_ok env → all_checked_ok env := fun h => ⟨h1, by simp [hcam], h3, h⟩
  have hA : ∀ e ∈ [(⟨54, .dc1394_new⟩ : Event),
      ⟨55, .dc1394_camera_enumerate DC1394_SUCCESS⟩],
      early env e = true ∧ checked_failure e = false := by
    intro e he
    simp only [List.mem_cons, List.mem_singleton, List.not_mem_nil, or_false] at he
    rcases he with rfl | rfl <;> simp [early, checked_failure]
  have hB : ∀ e ∈ [(⟨65, .dc1394_camera_new id0.guid (some camera)⟩ : Event)],
      early env e = true ∧ checked_failure e = false := by
    intro e he
    simp only [List.mem_cons, List.mem_singleton, List.not_mem_nil, or_false] at he
    subst he
    simp [early, checked_failure, hcam]
  have hC : ∀ e ∈ [(⟨71, .dc1394_camera_free_list⟩ : Event),
      ⟨73, .printf ("Using camera with GUID " ++ hex camera.guid ++ "\n")⟩,
      ⟨80, .dc1394_video_get_supported_modes camera env.dc1394_video_get_supported_modes.1⟩],
      early env e = true ∧ checked_failure e = false := by
    intro e he
    simp only [List.mem_cons, List.mem_singleton, List.not_mem_nil, or_false] at he
    rcases he with rfl | rfl | rfl <;> simp [early, checked_failure, h3]
  rcases hn : sel.next with st | iv
  · rw [andThen_error sel (main_after_select env camera) st hn]
    have hst := hnext st hn
    subst hst
    exact Classified.emit _ (Classified.emit _ (Classified.emit _
      (Or.inl ⟨sel.trace, rfl, hsel⟩) id hC) id hB) id hA
  · rw [andThen_ok sel (main_after_select env camera) iv hn]
    exact Classified.emit _ (Classified.emit _ (Classified.emit _ (Classified.emit _
      (main_after_select_classified env camera iv) hok hsel) id hC) id hB) id hA

theorem cleanup_trace (env : Env) (camera : dc1394camera_t) :
    (cleanup_and_exit env camera).trace =
      [⟨32, .dc1394_video_set_transmission camera DC1394_OFF env.cleanup_transmission⟩,
       ⟨33, .dc1394_capture_stop camera env.cleanup_capture_stop⟩,
       ⟨34, .dc1394_camera_free camera⟩] := rfl

theorem cleanup_status (env : Env) (camera : dc1394camera_t) :
    (cleanup_and_exit env camera).status = .exit 1 := rfl

theorem main_save_failed (env : Env) (camera : dc1394camera_t) (video_mode : dc1394video_mode_t)
    (frame : dc1394video_frame_t) (h : env.fopen = false) :
    main_save env camera video_mode frame =
      emit [⟨190, .fopen "image.pgm" "wb" false⟩,
            ⟨193, .perror "Can\x27t create \x27image.pgm\x27"⟩] (cleanup_and_exit env camera) := by
  unfold main_save
  rw [if_pos h, h, emit_emit]
  rfl

theorem main_save_done (env : Env) (camera : dc1394camera_t) (video_mode : dc1394video_mode_t)
    (frame : dc1394video_frame_t) (h : env.fopen = true) :
    main_save env camera video_mode frame =
      ⟨[⟨190, .fopen "image.pgm" "wb" true⟩,
        ⟨197, .dc1394_get_image_size_from_video_mode camera video_mode
                env.dc1394_get_image_size_from_video_mode.1
                (env.dc1394_get_image_size_from_video_mode.2.1 % 4294967296)
                (env.dc1394_get_image_size_from_video_mode.2.2 % 4294967296)⟩,
        ⟨198, .fprintf .imagefile
                ("P5\n" ++ Nat.repr (env.dc1394_get_image_size_from_video_mode.2.1 % 4294967296) ++
                 " " ++ Nat.repr (env.dc1394_get_image_size_from_video_mode.2.2 % 4294967296) ++
                 " 255\n")⟩,
        ⟨199, .fwrite frame.image 1
                (uint32_mul (env.dc1394_get_image_size_from_video_mode.2.2 % 4294967296)
                  (env.dc1394_get_image_size_from_video_mode.2.1 % 4294967296)) .imagefile⟩,
        ⟨200, .fclose .imagefile⟩,
        ⟨201, .printf "wrote: image.pgm\n"⟩,
        ⟨206, .dc1394_video_set_transmission camera DC1394_OFF env.close_transmission⟩,
        ⟨207, .dc1394_capture_stop camera env.dc1394_capture_stop⟩,
        ⟨208, .dc1394_camera_free camera⟩,
        ⟨209, .dc1394_free⟩],
       .exit 0⟩ := by
  unfold main_save
  rw [if_neg (by simp [h]), h]
  rfl

/-- A run that ends with status 0, or in which the output file is opened,
went through every checked call successfully and then through the
file-saving part. -/
theorem reach_save (env : Env)
    (h : (main env).status = .exit 0 ∨
         ⟨190, .fopen "image.pgm" "wb" true⟩ ∈ (main env).trace) :
    ∃ pre camera video_mode,
      env.dc1394_camera_new = some camera ∧ env.fopen = true ∧ all_checked_ok env ∧
      main env = emit pre (main_save env camera video_mode env.dc1394_capture_dequeue.2) ∧
      ∀ e ∈ pre, early env e = true ∧ checked_failure e = false := by
  rcases main_classified env with ⟨-, hm⟩ | ⟨-, hm⟩ | hm | ⟨g, hm⟩ | ⟨camera, hcam, hc⟩
  · rw [hm] at h; simp at h
  · rw [hm] at h; simp at h
  · rw [hm] at h; simp at h
  · rw [hm] at h; simp at h
  rcases hc with ⟨pre, hm, hpre⟩ | ⟨pre, hm, hpre⟩ | ⟨pre, vm, hm, hok, hpre⟩
  · exfalso
    rw [hm] at h
    rcases h with h | h
    · simp at h
    · have := (hpre _ h).1
      simp [early] at this
  · exfalso
    rw [hm] at h
    rcases h with h | h
    · simp [cleanup_status] at h
    · rw [emit_trace, List.mem_append] at h
      rcases h with h | h
      · have := hpre _ h
        simp [early] at this
      · simp [cleanup_trace] at h
  · by_cases hf : env.fopen = true
    · exact ⟨pre, camera, vm, hcam, hf, hok, hm, hpre⟩
    · exfalso
      simp only [Bool.not_eq_true] at hf
      rw [hm, main_save_failed _ _ _ _ hf] at h
      rcases h with h | h
      · simp [cleanup_status] at h
      · simp only [emit_trace, List.mem_append] at h
        rcases h with h | h | h
        · have := (hpre _ h).1
          simp [early] at this
        · simp at h
        · simp [cleanup_trace] at h

theorem early_not_writes (env : Env) (e : Event) (h : early env e = true) :
    writes_imagefile e = false := by
  rcases e with ⟨line, call⟩
  cases call <;> simp_all [early, writes_imagefile]
  rename_i s _
  cases s <;> simp_all [early]

theorem early_no_payload (env : Env) (pre : List Event) (h : ∀ e ∈ pre, early env e = true) :
    payload_requests pre = [] := by
  unfold payload_requests
  rw [List.filterMap_eq_nil_iff]
  intro e he
  have := h e he
  rcases e with ⟨line, call⟩
  cases call <;> simp_all [early]

/-- C1. Whenever the output file is opened, what `main` writes to it is
the text `P5`, newline, the width in decimal, a space, the height in
decimal, ` 255` and a newline, followed by the single `fwrite` of the
payload; width and height are the values `dc1394_get_image_size_from_video_mode`
returned at line 197. -/
theorem pgm_header_matches_size (env : Env)
    (h : ⟨190, .fopen "image.pgm" "wb" true⟩ ∈ (main env).trace) :
    ∃ camera video_mode data,
      ⟨197, .dc1394_get_image_size_from_video_mode camera video_mode
              env.dc1394_get_image_size_from_video_mode.1
              (env.dc1394_get_image_size_from_video_mode.2.1 % 4294967296)
              (env.dc1394_get_image_size_from_video_mode.2.2 % 4294967296)⟩ ∈ (main env).trace ∧
      (main env).trace.filter writes_imagefile =
        [⟨198, .fprintf .imagefile
                ("P5\n" ++ Nat.repr (env.dc1394_get_image_size_from_video_mode.2.1 % 4294967296) ++
                 " " ++ Nat.repr (env.dc1394_get_image_size_from_video_mode.2.2 % 4294967296) ++
                 " 255\n")⟩,
         ⟨199, .fwrite data 1
                (uint32_mul (env.dc1394_get_image_size_from_video_mode.2.2 % 4294967296)
                  (env.dc1394_get_image_size_from_video_mode.2.1 % 4294967296)) .imagefile⟩] := by
  obtain ⟨pre, camera, vm, -, hf, -, hm, hpre⟩ := reach_save env (Or.inr h)
  refine ⟨camera, vm, env.dc1394_capture_dequeue.2.image, ?_, ?_⟩
  · rw [hm, main_save_done _ _ _ _ hf, emit_trace]
    exact List.mem_append_right _ (List.mem_cons_of_mem _ (List.mem_cons_self _ _))
  · rw [hm, main_save_done _ _ _ _ hf, emit_trace, List.filter_append]
    have : pre.filter writes_imagefile = [] := by
      rw [List.filter_eq_nil_iff]
      intro e he
      simp [early_not_writes env e (hpre e he).1]
    rw [this]
    rfl

/-- Witness of C1: the successful run `env_ok` opens the file and writes the
header `P5`, newline, `3 2 255`, newline. -/
theorem pgm_header_matches_size_witness :
    ⟨190, .fopen "image.pgm" "wb" true⟩ ∈ (main env_ok).trace ∧
    ∃ camera video_mode data,
      ⟨197, .dc1394_get_image_size_from_video_mode camera video_mode DC1394_SUCCESS 3 2⟩ ∈
          (main env_ok).trace ∧
      (main env_ok).trace.filter writes_imagefile =
        [⟨198, .fprintf .imagefile "P5\n3 2 255\n"⟩,
         ⟨199, .fwrite data 1 6 .imagefile⟩] :=
  have h : ⟨190, .fopen "image.pgm" "wb" true⟩ ∈ (main env_ok).trace := by
    simp [main, env_ok, emit, Run.andThen, select_mode, uint32_pred, to_int, Run.emitThen,
      main_after_select, main_setup, main_capture, main_after_wait, main_save, wait_transmission]
  ⟨h, pgm_header_matches_size env_ok h⟩

/-- C2 (amended). Whenever the output file is opened and the reported width
and height are unsigned 32-bit values, `main` makes exactly one `fwrite`
call and asks it for `(width * height) mod 2^32` bytes, which is the
product itself whenever the product is below `2^32`. -/
theorem payload_length_mod (env : Env)
    (h : ⟨190, .fopen "image.pgm" "wb" true⟩ ∈ (main env).trace)
    (hw : env.dc1394_get_image_size_from_video_mode.2.1 < 4294967296)
    (hh : env.dc1394_get_image_size_from_video_mode.2.2 < 4294967296) :
    payload_requests (main env).trace =
      [(env.dc1394_get_image_size_from_video_mode.2.1 *
        env.dc1394_get_image_size_from_video_mode.2.2) % 4294967296] ∧
    (env.dc1394_get_image_size_from_video_mode.2.1 *
        env.dc1394_get_image_size_from_video_mode.2.2 < 4294967296 →
      payload_requests (main env).trace =
        [env.dc1394_get_image_size_from_video_mode.2.1 *
          env.dc1394_get_image_size_from_video_mode.2.2]) := by
  obtain ⟨pre, camera, vm, -, hf, -, hm, hpre⟩ := reach_save env (Or.inr h)
  have key : payload_requests (main env).trace =
      [(env.dc1394_get_image_size_from_video_mode.2.1 *
        env.dc1394_get_image_size_from_video_mode.2.2) % 4294967296] := by
    rw [hm, main_save_done _ _ _ _ hf, emit_trace]
    unfold payload_requests
    rw [List.filterMap_append]
    have hp := early_no_payload env pre (fun e he => (hpre e he).1)
    unfold payload_requests at hp
    rw [hp, Nat.mod_eq_of_lt hw, Nat.mod_eq_of_lt hh]
    simp [uint32_mul, Nat.mul_comm]
  refine ⟨key, fun hlt => ?_⟩
  rw [key, Nat.mod_eq_of_lt hlt]

/-- Witness of C2 (amended): in the successful run `env_ok` the image is
3 x 2 and six bytes are requested. -/
theorem payload_length_mod_witness :
    ⟨190, .fopen "image.pgm" "wb" true⟩ ∈ (main env_ok).trace ∧
    payload_requests (main env_ok).trace = [6] :=
  have h : ⟨190, .fopen "image.pgm" "wb" true⟩ ∈ (main env_ok).trace := by
    simp [main, env_ok, emit, Run.andThen, select_mode, uint32_pred, to_int, Run.emitThen,
      main_after_select, main_setup, main_capture, main_after_wait, main_save, wait_transmission]
  ⟨h, (payload_length_mod env_ok h (by decide) (by decide)).1⟩

/-- Counterexample to C2 as stated: for the 32-bit values width = height =
65536 the file is opened and `fwrite` is asked for 0 bytes, not for the
product 4294967296. -/
theorem payload_length_counterexample :
    ⟨190, .fopen "image.pgm" "wb" true⟩ ∈ (main env_wide).trace ∧
    env_wide.dc1394_get_image_size_from_video_mode.2.1 = 65536 ∧
    env_wide.dc1394_get_image_size_from_video_mode.2.2 = 65536 ∧
    payload_requests (main env_wide).trace = [0] ∧
    payload_requests (main env_wide).trace ≠ [65536 * 65536] := by
  have h : payload_requests (main env_wide).trace = [0] := by
    simp [main, env_wide, env_ok, emit, Run.andThen, select_mode, uint32_pred, to_int,
      Run.emitThen, main_after_select, main_setup, main_capture, main_after_wait, main_save,
      wait_transmission, payload_requests, uint32_mul]
  refine ⟨?_, rfl, rfl, h, ?_⟩
  · simp [main, env_wide, env_ok, emit, Run.andThen, select_mode, uint32_pred, to_int,
      Run.emitThen, main_after_select, main_setup, main_capture, main_after_wait, main_save,
      wait_transmission]
  · rw [h]; decide

theorem main_save_no_checked_failure (env : Env) (camera : dc1394camera_t)
    (video_mode : dc1394video_mode_t) (frame : dc1394video_frame_t) :
    ∀ e ∈ (main_save env camera video_mode frame).trace, checked_failure e = false := by
  intro e he
  by_cases hf : env.fopen = true
  · rw [main_save_done _ _ _ _ hf] at he
    simp only [List.mem_cons, List.mem_singleton, List.not_mem_nil, or_false] at he
    rcases he with rfl | rfl | rfl | rfl | rfl | rfl | rfl | rfl | rfl | rfl <;>
      simp [checked_failure]
  · simp only [Bool.not_eq_true] at hf
    rw [main_save_failed _ _ _ _ hf, emit_trace, cleanup_trace] at he
    simp only [List.mem_append, List.mem_cons, List.mem_singleton, List.not_mem_nil,
      or_false, or_assoc] at he
    rcases he with rfl | rfl | rfl | rfl | rfl <;> simp [checked_failure]

/-- A failing checked call ends the process with status 1, through
`cleanup_and_exit` once the camera handle exists. -/
theorem fatal_of_checked_failure (env : Env) (e : Event) (he : e ∈ (main env).trace)
    (hcf : checked_failure e = true) :
    (main env).status = .exit 1 ∧
    (e.line ≠ 55 → e.line ≠ 65 →
      ∃ camera pre, env.dc1394_camera_new = some camera ∧
        (main env).trace = pre ++ (cleanup_and_exit env camera).trace) := by
  rcases main_classified env with ⟨-, hm⟩ | ⟨-, hm⟩ | hm | ⟨g, hm⟩ | ⟨camera, hcam, hc⟩
  · rw [hm] at he ⊢
    simp only [List.mem_cons, List.mem_singleton, List.not_mem_nil, or_false] at he
    rcases he with rfl | rfl | rfl <;> simp [checked_failure] at hcf ⊢
  · rw [hm] at he
    simp only [List.mem_cons, List.mem_singleton, List.not_mem_nil, or_false] at he
    rcases he with rfl | rfl | rfl <;> simp [checked_failure] at hcf
  · rw [hm] at he
    simp only [List.mem_cons, List.mem_singleton, List.not_mem_nil, or_false] at he
    rcases he with rfl | rfl <;> simp [checked_failure] at hcf
  · rw [hm] at he ⊢
    simp only [List.mem_cons, List.mem_singleton, List.not_mem_nil, or_false] at he
    rcases he with rfl | rfl | rfl | rfl <;> simp [checked_failure] at hcf ⊢
  rcases hc with ⟨pre, hm, hpre⟩ | ⟨pre, hm, hpre⟩ | ⟨pre, vm, hm, -, hpre⟩
  · rw [hm] at he
    rw [(hpre e he).2] at hcf
    cases hcf
  · rw [hm]
    exact ⟨rfl, fun _ _ => ⟨camera, pre, hcam, rfl⟩⟩
  · rw [hm, emit_trace] at he
    rcases List.mem_append.mp he with he | he
    · rw [(hpre e he).2] at hcf
      cases hcf
    · rw [main_save_no_checked_failure _ _ _ _ e he] at hcf
      cases hcf

/-- A run that ends with status 0 saw every checked call succeed. -/
theorem all_ok_of_exit_zero (env : Env) (h0 : (main env).status = .exit 0) :
    all_checked_ok env ∧ ∀ e ∈ (main env).trace, checked_failure e = false := by
  obtain ⟨pre, camera, vm, -, hf, hok, hm, hpre⟩ := reach_save env (Or.inl h0)
  refine ⟨hok, fun e he => ?_⟩
  rw [hm, emit_trace] at he
  rcases List.mem_append.mp he with he | he
  · exact (hpre e he).2
  · exact main_save_no_checked_failure _ _ _ _ e he

theorem same_refl (o : Outcome) : Same o o := ⟨rfl, rfl⟩

theorem same_emit {o' o : Outcome} (es' es : List Event)
    (hes : (es'.map Event.line).filter (fun l => decide (l ≠ 134 ∧ l ≠ 137 ∧ l ≠ 184)) =
           (es.map Event.line).filter (fun l => decide (l ≠ 134 ∧ l ≠ 137 ∧ l ≠ 184)))
    (h : Same o' o) : Same (GrabGrayImage.emit es' o') (GrabGrayImage.emit es o) := by
  refine ⟨h.1, ?_⟩
  have h2 := h.2
  unfold executed_lines at h2 ⊢
  rw [emit_trace, emit_trace, List.map_append, List.map_append, List.filter_append,
    List.filter_append, hes, h2]

theorem cleanup_congr {env' env : Env} (h : Agree env' env) (camera : dc1394camera_t) :
    cleanup_and_exit env' camera = cleanup_and_exit env camera := by
  unfold cleanup_and_exit
  rw [h.cleanup_transmission, h.cleanup_capture_stop]

theorem wait_transmission_congr {env' env : Env} (h : Agree env' env) (camera : dc1394camera_t)
    (status : dc1394switch_t) (i : Int) :
    wait_transmission env' camera status i = wait_transmission env camera status i := by
  induction status, i using wait_transmission.induct env camera with
  | case1 i hi ih =>
    rw [wait_transmission.eq_1 env' camera DC1394_OFF i,
      wait_transmission.eq_1 env camera DC1394_OFF i, h.polls, cleanup_congr h, ih]
  | case2 i hi =>
    rw [wait_transmission.eq_1 env' camera DC1394_OFF i,
      wait_transmission.eq_1 env camera DC1394_OFF i, if_neg hi, if_neg hi]
  | case3 status i hs =>
    rw [wait_transmission.eq_1 env' camera status i,
      wait_transmission.eq_1 env camera status i, if_neg hs, if_neg hs]

theorem select_mode_congr {env' env : Env} (h : Agree env' env) (camera : dc1394camera_t)
    (video_modes : dc1394video_modes_t) (video_mode : dc1394video_mode_t) (i : Int) :
    select_mode env' camera video_modes video_mode i =
      select_mode env camera video_modes video_mode i := by
  induction i using select_mode.induct env camera video_modes video_mode with
  | case1 x hx hnone =>
    rw [select_mode.eq_1 env' camera video_modes video_mode x,
      select_mode.eq_1 env camera video_modes video_mode x, h.scalable, h.select_coding]
    simp only [hx, hnone, if_true]
  | case2 x hx m hm hs hc =>
    rw [select_mode.eq_1 env' camera video_modes video_mode x,
      select_mode.eq_1 env camera video_modes video_mode x, h.scalable, h.select_coding]
    simp only [hx, hm, hs, hc, if_true]
  | case3 x hx m hm hs hc ih =>
    rw [select_mode.eq_1 env' camera video_modes video_mode x,
      select_mode.eq_1 env camera video_modes video_mode x, h.scalable, h.select_coding]
    simp only [hx, hm, hs, hc, if_true, if_false, ih]
  | case4 x hx m hm hs ih =>
    rw [select_mode.eq_1 env' camera video_modes video_mode x,
      select_mode.eq_1 env camera video_modes video_mode x, h.scalable, h.select_coding]
    simp only [Bool.not_eq_true', Bool.not_eq_false] at hs
    simp only [hx, hm, hs, Bool.not_true, Bool.false_eq_true, if_true, if_false, ih]
  | case5 x hx =>
    rw [select_mode.eq_1 env' camera video_modes video_mode x,
      select_mode.eq_1 env camera video_modes video_mode x, if_neg hx, if_neg hx]

theorem main_save_same {env' env : Env} (h : Agree env' env) (camera : dc1394camera_t)
    (video_mode : dc1394video_mode_t) (frame : dc1394video_frame_t) :
    Same (main_save env' camera video_mode frame) (main_save env camera video_mode frame) := by
  by_cases hf : env.fopen = true
  · rw [main_save_done env' _ _ _ (h.fopen.trans hf), main_save_done env _ _ _ hf]
    exact ⟨rfl, rfl⟩
  · simp only [Bool.not_eq_true] at hf
    rw [main_save_failed env' _ _ _ (h.fopen.trans hf), main_save_failed env _ _ _ hf,
      cleanup_congr h]
    exact same_refl _

theorem main_after_wait_same {env' env : Env} (h : Agree env' env) (camera : dc1394camera_t)
    (video_mode : dc1394video_mode_t) (si : dc1394switch_t × Int) :
    Same (main_after_wait env' camera video_mode si)
      (main_after_wait env camera video_mode si) := by
  unfold main_after_wait
  rw [h.dequeue, cleanup_congr h]
  by_cases h1 : si.2 = 5
  · rw [if_pos h1, if_pos h1]
    exact same_refl _
  rw [if_neg h1, if_neg h1]
  refine same_emit _ _ rfl ?_
  by_cases h2 : env.dc1394_capture_dequeue.1 = DC1394_SUCCESS
  · rw [if_neg (not_not.mpr h2), if_neg (not_not.mpr h2)]
    refine same_emit _ _ ?_ (main_save_same h camera video_mode _)
    split_ifs <;> rfl
  · rw [if_pos h2, if_pos h2]
    exact same_refl _

theorem main_capture_same {env' env : Env} (h : Agree env' env) (camera : dc1394camera_t)
    (video_mode : dc1394video_mode_t) :
    Same (main_capture env' camera video_mode) (main_capture env camera video_mode) := by
  unfold main_capture
  rw [wait_transmission_congr h]
  refine same_emit _ _ rfl ?_
  rcases hn : (wait_transmission env camera DC1394_OFF 0).next with st | si
  · rw [andThen_error _ _ _ hn, andThen_error _ _ _ hn]
    exact same_refl _
  · rw [andThen_ok _ _ _ hn, andThen_ok _ _ _ hn]
    exact same_emit _ _ rfl (main_after_wait_same h camera video_mode si)

theorem main_setup_same {env' env : Env} (h : Agree env' env) (camera : dc1394camera_t)
    (video_mode : dc1394video_mode_t) :
    Same (main_setup env' camera video_mode) (main_setup env camera video_mode) := by
  unfold main_setup
  rw [h.coding, h.framerates, h.capture_setup, h.start, cleanup_congr h]
  refine same_emit _ _ rfl ?_
  by_cases h1 : env.dc1394_get_color_coding_from_video_mode.1 = DC1394_SUCCESS
  swap
  · rw [if_pos h1, if_pos h1]
    exact same_refl _
  rw [if_neg (not_not.mpr h1), if_neg (not_not.mpr h1)]
  refine same_emit _ _ rfl ?_
  by_cases h2 : env.dc1394_video_get_supported_framerates.1 = DC1394_SUCCESS
  swap
  · rw [if_pos h2, if_pos h2]
    exact same_refl _
  rw [if_neg (not_not.mpr h2), if_neg (not_not.mpr h2)]
  rcases hfr : env.dc1394_video_get_supported_framerates.2.framerates[
      uint32_pred env.dc1394_video_get_supported_framerates.2.num]? with _ | framerate
  · exact same_refl _
  dsimp only
  refine same_emit _ _ rfl ?_
  by_cases h3 : env.dc1394_capture_setup = DC1394_SUCCESS
  swap
  · rw [if_pos h3, if_pos h3]
    exact same_refl _
  rw [if_neg (not_not.mpr h3), if_neg (not_not.mpr h3)]
  refine same_emit _ _ ?_ ?_
  · split_ifs <;> rfl
  by_cases h4 : env.start_transmission = DC1394_SUCCESS
  swap
  · rw [if_pos h4, if_pos h4]
    exact same_refl _
  rw [if_neg (not_not.mpr h4), if_neg (not_not.mpr h4)]
  exact main_capture_same h camera video_mode

theorem main_after_select_same {env' env : Env} (h : Agree env' env) (camera : dc1394camera_t)
    (iv : Int × dc1394video_mode_t) :
    Same (main_after_select env' camera iv) (main_after_select env camera iv) := by
  unfold main_after_select
  rw [cleanup_congr h]
  by_cases h1 : iv.1 < 0
  · rw [if_pos h1, if_pos h1]
    exact same_refl _
  · rw [if_neg h1, if_neg h1]
    exact main_setup_same h camera iv.2

theorem main_same {env' env : Env} (h : Agree env' env) : Same (main env') (main env) := by
  unfold main
  rw [h.enumerate, h.camera_new, h.modes]
  refine same_emit _ _ rfl ?_
  by_cases h1 : env.dc1394_camera_enumerate.1 = DC1394_SUCCESS
  swap
  · rw [if_pos h1, if_pos h1]
    exact same_refl _
  rw [if_neg (not_not.mpr h1), if_neg (not_not.mpr h1)]
  by_cases h2 : env.dc1394_camera_enumerate.2.num = 0
  · rw [if_pos h2, if_pos h2]
    exact same_refl _
  rw [if_neg h2, if_neg h2]
  rcases hid : env.dc1394_camera_enumerate.2.ids[0]? with _ | id0
  · exact same_refl _
  dsimp only
  refine same_emit _ _ rfl ?_
  rcases hcam : env.dc1394_camera_new with _ | camera
  · exact same_refl _
  dsimp only
  refine same_emit _ _ rfl ?_
  by_cases h3 : env.dc1394_video_get_supported_modes.1 = DC1394_SUCCESS
  swap
  · rw [if_pos h3, if_pos h3, cleanup_congr h]
    exact same_refl _
  rw [if_neg (not_not.mpr h3), if_neg (not_not.mpr h3), select_mode_congr h]
  rcases hn : (select_mode env camera env.dc1394_video_get_supported_modes.2 0
      (to_int (uint32_pred env.dc1394_video_get_supported_modes.2.num))).next with st | iv
  · rw [andThen_error _ _ _ hn, andThen_error _ _ _ hn]
    exact same_refl _
  · rw [andThen_ok _ _ _ hn, andThen_ok _ _ _ hn]
    exact same_emit _ _ rfl (main_after_select_same h camera iv)

theorem with_unchecked_agree (env : Env)
    (r_iso r_mode r_rate r_feat r_stop r_size : dc1394error_t) :
    Agree (with_unchecked env r_iso r_mode r_rate r_feat r_stop r_size) env :=
  ⟨rfl, rfl, rfl, rfl, rfl, rfl, rfl, rfl, rfl, rfl, rfl, rfl, rfl, rfl⟩

/-- C3 (amended). If a call whose answer `main` checks fails (camera
enumeration, camera creation, the mode list, the colour coding of the
selected mode, the frame-rate list, capture setup, starting the
transmission, a poll of the transmission status, the dequeue), the process
ends with exit status 1, through `cleanup_and_exit` once the camera handle
exists; it ends with status 0 only when every one of these calls
succeeded; and whatever `dc1394_video_set_iso_speed`, `dc1394_video_set_mode`,
`dc1394_video_set_framerate`, `dc1394_feature_get_all`, the stopping
`dc1394_video_set_transmission` and `dc1394_get_image_size_from_video_mode`
return, the run ends with the same status after going through the same
source lines (the messages of lines 134, 137 and 184 apart): a failure of
one of them does not end the run. -/
theorem checked_failure_is_fatal (env : Env) :
    (∀ e ∈ (main env).trace, checked_failure e = true →
        (main env).status = .exit 1 ∧
        (e.line ≠ 55 → e.line ≠ 65 →
          ∃ camera pre, env.dc1394_camera_new = some camera ∧
            (main env).trace = pre ++ (cleanup_and_exit env camera).trace)) ∧
    ((main env).status = .exit 0 →
        all_checked_ok env ∧ ∀ e ∈ (main env).trace, checked_failure e = false) ∧
    (∀ r_iso r_mode r_rate r_feat r_stop r_size : dc1394error_t,
        (main (with_unchecked env r_iso r_mode r_rate r_feat r_stop r_size)).status =
          (main env).status ∧
        executed_lines (main (with_unchecked env r_iso r_mode r_rate r_feat r_stop r_size)) =
          executed_lines (main env)) :=
  ⟨fun e he hcf => fatal_of_checked_failure env e he hcf, all_ok_of_exit_zero env,
   fun r_iso r_mode r_rate r_feat r_stop r_size =>
     main_same (with_unchecked_agree env r_iso r_mode r_rate r_feat r_stop r_size)⟩

/-- Instance of C3 (amended): when `dc1394_capture_setup` fails the run
ends with status 1 after `cleanup_and_exit`; and the successful run
`env_ok` still ends with status 0 when the six unchecked calls all fail. -/
theorem checked_failure_is_fatal_witness :
    ((main env_setup_fails).status = .exit 1 ∧
      ∃ camera pre, env_setup_fails.dc1394_camera_new = some camera ∧
        (main env_setup_fails).trace = pre ++ (cleanup_and_exit env_setup_fails camera).trace) ∧
    (main (with_unchecked env_ok (DC1394_FAILURE 1) (DC1394_FAILURE 1) (DC1394_FAILURE 1)
      (DC1394_FAILURE 1) (DC1394_FAILURE 1) (DC1394_FAILURE 1))).status = .exit 0 :=
  have h := (checked_failure_is_fatal env_setup_fails).1
    ⟨121, .dc1394_capture_setup ⟨2989⟩ 4 DC1394_CAPTURE_FLAGS_DEFAULT (DC1394_FAILURE 1)⟩
    (by simp [main, env_setup_fails, env_ok, emit, Run.andThen, select_mode, uint32_pred, to_int,
      Run.emitThen, main_after_select, main_setup, cleanup_and_exit])
    (by simp [checked_failure])
  have h0 : (main env_ok).status = .exit 0 := by
    simp [main, env_ok, emit, Run.andThen, select_mode, uint32_pred, to_int, Run.emitThen,
      main_after_select, main_setup, main_capture, main_after_wait, main_save, wait_transmission]
  ⟨⟨h.1, h.2 (by decide) (by decide)⟩,
   ((checked_failure_is_fatal env_ok).2.2 (DC1394_FAILURE 1) (DC1394_FAILURE 1)
      (DC1394_FAILURE 1) (DC1394_FAILURE 1) (DC1394_FAILURE 1) (DC1394_FAILURE 1)).1.trans h0⟩

/-- Counterexample to C3 as stated: in `env_unchecked_fail` the calls
`dc1394_video_set_iso_speed`, `dc1394_video_set_mode`,
`dc1394_video_set_framerate`, `dc1394_feature_get_all`, the stopping
`dc1394_video_set_transmission` and `dc1394_get_image_size_from_video_mode`
all fail, and the process still ends with status 0. -/
theorem unchecked_failure_counterexample :
    ⟨118, .dc1394_video_set_iso_speed ⟨2989⟩ DC1394_ISO_SPEED_400 (DC1394_FAILURE 1)⟩ ∈
      (main env_unchecked_fail).trace ∧
    ⟨119, .dc1394_video_set_mode ⟨2989⟩ 69 (DC1394_FAILURE 1)⟩ ∈
      (main env_unchecked_fail).trace ∧
    ⟨120, .dc1394_video_set_framerate ⟨2989⟩ 35 (DC1394_FAILURE 1)⟩ ∈
      (main env_unchecked_fail).trace ∧
    ⟨133, .dc1394_feature_get_all ⟨2989⟩ (DC1394_FAILURE 1)⟩ ∈
      (main env_unchecked_fail).trace ∧
    ⟨183, .dc1394_video_set_transmission ⟨2989⟩ DC1394_OFF (DC1394_FAILURE 1)⟩ ∈
      (main env_unchecked_fail).trace ∧
    ⟨197, .dc1394_get_image_size_from_video_mode ⟨2989⟩ 69 (DC1394_FAILURE 1) 3 2⟩ ∈
      (main env_unchecked_fail).trace ∧
    (main env_unchecked_fail).status = .exit 0 := by
  simp [main, env_unchecked_fail, env_ok, emit, Run.andThen, select_mode, uint32_pred, to_int,
    Run.emitThen, main_after_select, main_setup, main_capture, main_after_wait, main_save,
    wait_transmission]

theorem early_not_fopen (env : Env) (e : Event) (h : early env e = true)
    (name mode : String) (ok : Bool) : e.call ≠ .fopen name mode ok := by
  intro hc
  rcases e with ⟨line, call⟩
  simp only at hc
  subst hc
  simp [early] at h

theorem cleanup_not_fopen (env : Env) (camera : dc1394camera_t) (e : Event)
    (h : e ∈ (cleanup_and_exit env camera).trace) (name mode : String) (ok : Bool) :
    e.call ≠ .fopen name mode ok := by
  rw [cleanup_trace] at h
  simp only [List.mem_cons, List.mem_singleton, List.not_mem_nil, or_false] at h
  rcases h with rfl | rfl | rfl <;> simp

/-- C5. If camera enumeration fails, or the camera list is empty, or
`dc1394_capture_setup` is called and fails, the process ends with the
nonzero exit status (1) and never calls `fopen`. -/
theorem no_file_on_early_failure (env : Env)
    (h : env.dc1394_camera_enumerate.1 ≠ DC1394_SUCCESS ∨
         env.dc1394_camera_enumerate.2.num = 0 ∨
         ∃ camera n flags r, r ≠ DC1394_SUCCESS ∧
           ⟨121, .dc1394_capture_setup camera n flags r⟩ ∈ (main env).trace) :
    (∃ code : Int, code ≠ 0 ∧ (main env).status = .exit code) ∧
    ∀ e ∈ (main env).trace, ∀ name mode ok, e.call ≠ .fopen name mode ok := by
  have hE1 : env.dc1394_camera_enumerate.1 ≠ DC1394_SUCCESS →
      main env = ⟨[⟨54, .dc1394_new⟩,
        ⟨55, .dc1394_camera_enumerate env.dc1394_camera_enumerate.1⟩,
        ⟨56, .fprintf .stderr "Failed to enumerate cameras\n"⟩], .exit 1⟩ := by
    intro h1
    unfold main
    rw [if_pos h1]
    rfl
  have hE2 : env.dc1394_camera_enumerate.1 = DC1394_SUCCESS →
      env.dc1394_camera_enumerate.2.num = 0 →
      main env = ⟨[⟨54, .dc1394_new⟩,
        ⟨55, .dc1394_camera_enumerate env.dc1394_camera_enumerate.1⟩,
        ⟨61, .fprintf .stderr "No cameras found\n"⟩], .exit 1⟩ := by
    intro h1 h2
    unfold main
    rw [if_neg (not_not.mpr h1), if_pos h2]
    rfl
  have hfatal : (∃ camera n flags r, r ≠ DC1394_SUCCESS ∧
      ⟨121, .dc1394_capture_setup camera n flags r⟩ ∈ (main env).trace) →
      (main env).status = .exit 1 := by
    rintro ⟨c, n, fl, r, hr, hmem⟩
    exact (fatal_of_checked_failure env _ hmem (by simp [checked_failure, hr])).1
  refine ⟨⟨1, by decide, ?_⟩, ?_⟩
  · rcases h with h1 | h2 | h3
    · rw [hE1 h1]
    · by_cases h1 : env.dc1394_camera_enumerate.1 = DC1394_SUCCESS
      · rw [hE2 h1 h2]
      · rw [hE1 h1]
    · exact hfatal h3
  · intro e he name mode ok
    by_cases h1 : env.dc1394_camera_enumerate.1 = DC1394_SUCCESS
    swap
    · rw [hE1 h1] at he
      simp only [List.mem_cons, List.mem_singleton, List.not_mem_nil, or_false] at he
      rcases he with rfl | rfl | rfl <;> simp
    by_cases h2 : env.dc1394_camera_enumerate.2.num = 0
    · rw [hE2 h1 h2] at he
      simp only [List.mem_cons, List.mem_singleton, List.not_mem_nil, or_false] at he
      rcases he with rfl | rfl | rfl <;> simp
    rcases h with h | h | h3
    · exact absurd h1 h
    · exact absurd h h2
    have hst := hfatal h3
    obtain ⟨c, n, fl, r, hr, hmem⟩ := h3
    have hcf : checked_failure ⟨121, .dc1394_capture_setup c n fl r⟩ = true := by
      simp [checked_failure, hr]
    rcases main_classified env with ⟨h, -⟩ | ⟨h, -⟩ | hm | ⟨g, hm⟩ | ⟨camera, hcam, hc⟩
    · exact absurd h1 h
    · exact absurd h h2
    · rw [hm] at hst; cases hst
    · rw [hm] at hmem; simp at hmem
    rcases hc with ⟨pre, hm, hpre⟩ | ⟨pre, hm, hpre⟩ | ⟨pre, vm, hm, -, hpre⟩
    · rw [hm] at hst; cases hst
    · rw [hm, emit_trace] at he
      rcases List.mem_append.mp he with he | he
      · exact early_not_fopen env e (hpre e he) name mode ok
      · exact cleanup_not_fopen env camera e he name mode ok
    · exfalso
      rw [hm, emit_trace] at hmem
      rcases List.mem_append.mp hmem with hmem | hmem
      · rw [(hpre _ hmem).2] at hcf
        cases hcf
      · rw [main_save_no_checked_failure _ _ _ _ _ hmem] at hcf
        cases hcf

/-- Witness of C5: when `dc1394_capture_setup` fails the run ends with
status 1 and no `fopen` call is made. -/
theorem no_file_on_early_failure_witness :
    (env_setup_fails.dc1394_camera_enumerate.1 ≠ DC1394_SUCCESS ∨
      env_setup_fails.dc1394_camera_enumerate.2.num = 0 ∨
      ∃ camera n flags r, r ≠ DC1394_SUCCESS ∧
        ⟨121, .dc1394_capture_setup camera n flags r⟩ ∈ (main env_setup_fails).trace) ∧
    (∃ code : Int, code ≠ 0 ∧ (main env_setup_fails).status = .exit code) ∧
    ∀ e ∈ (main env_setup_fails).trace, ∀ name mode ok, e.call ≠ .fopen name mode ok :=
  have h : env_setup_fails.dc1394_camera_enumerate.1 ≠ DC1394_SUCCESS ∨
      env_setup_fails.dc1394_camera_enumerate.2.num = 0 ∨
      ∃ camera n flags r, r ≠ DC1394_SUCCESS ∧
        ⟨121, .dc1394_capture_setup camera n flags r⟩ ∈ (main env_setup_fails).trace :=
    Or.inr (Or.inr ⟨⟨2989⟩, 4, DC1394_CAPTURE_FLAGS_DEFAULT, DC1394_FAILURE 1, by decide, by
      simp [main, env_setup_fails, env_ok, emit, Run.andThen, select_mode, uint32_pred, to_int,
        Run.emitThen, main_after_select, main_setup, cleanup_and_exit]⟩)
  ⟨h, no_file_on_early_failure env_setup_fails h⟩

theorem library_calls_append (s t : List Event) :
    library_calls (s ++ t) = library_calls s ++ library_calls t := by
  simp [library_calls]

theorem early_no_camera_free (env : Env) (camera : dc1394camera_t) (pre : List Event)
    (h : ∀ e ∈ pre, early env e = true) :
    (library_calls pre).count (.dc1394_camera_free camera) = 0 := by
  rw [List.count_eq_zero]
  intro hmem
  simp only [library_calls, List.mem_filter, List.mem_map] at hmem
  obtain ⟨⟨e, he, hcall⟩, -⟩ := hmem
  have := h e he
  rcases e with ⟨line, call⟩
  simp only at hcall
  subst hcall
  simp [early] at this

theorem early_camera_new (env : Env) (e : Event) (h : early env e = true)
    (guid : Nat) (camera : dc1394camera_t) (hc : e.call = .dc1394_camera_new guid (some camera)) :
    env.dc1394_camera_new = some camera := by
  rcases e with ⟨line, call⟩
  simp only at hc
  subst hc
  simpa [early, eq_comm] using h

/-- C6 (amended). On every exit of `main` taken after `dc1394_camera_new`
returned a camera handle, the calls into the library end with
`dc1394_video_set_transmission(camera, DC1394_OFF)`, `dc1394_capture_stop(camera)`,
`dc1394_camera_free(camera)`, followed on the normal return (status 0) only
by `dc1394_free`, and `dc1394_camera_free` is called exactly once on the
handle. -/
theorem camera_released_on_exit (env : Env) (guid : Nat) (camera : dc1394camera_t) (code : Int)
    (hnew : ⟨65, .dc1394_camera_new guid (some camera)⟩ ∈ (main env).trace)
    (hexit : (main env).status = .exit code) :
    (∃ pre r1 r2, library_calls (main env).trace =
        pre ++ [.dc1394_video_set_transmission camera DC1394_OFF r1,
                .dc1394_capture_stop camera r2,
                .dc1394_camera_free camera] ++
          (if code = 0 then [.dc1394_free] else [])) ∧
    (library_calls (main env).trace).count (.dc1394_camera_free camera) = 1 := by
  rcases main_classified env with ⟨-, hm⟩ | ⟨-, hm⟩ | hm | ⟨g, hm⟩ | ⟨cam, hcam, hc⟩
  · rw [hm] at hnew; simp at hnew
  · rw [hm] at hnew; simp at hnew
  · rw [hm] at hnew; simp at hnew
  · rw [hm] at hnew; simp at hnew
  have hsave : ∀ vm, ⟨65, .dc1394_camera_new guid (some camera)⟩ ∉
      (main_save env cam vm env.dc1394_capture_dequeue.2).trace := by
    intro vm hmem
    by_cases hf : env.fopen = true
    · rw [main_save_done _ _ _ _ hf] at hmem
      simp at hmem
    · simp only [Bool.not_eq_true] at hf
      rw [main_save_failed _ _ _ _ hf, emit_trace, cleanup_trace] at hmem
      simp at hmem
  rcases hc with ⟨pre, hm, hpre⟩ | ⟨pre, hm, hpre⟩ | ⟨pre, vm, hm, -, hpre⟩
  · rw [hm] at hexit; cases hexit
  · have heq : cam = camera := by
      rw [hm, emit_trace, cleanup_trace] at hnew
      rcases List.mem_append.mp hnew with h | h
      · have := early_camera_new env _ (hpre _ h) guid camera rfl
        rw [hcam] at this
        exact Option.some.inj this
      · simp at h
    subst heq
    have hcode : code = 1 := by
      rw [hm] at hexit
      exact (Status.exit.inj hexit).symm
    subst hcode
    rw [hm, emit_trace, library_calls_append, List.count_append,
      early_no_camera_free env cam pre hpre, cleanup_trace]
    refine ⟨⟨library_calls pre, env.cleanup_transmission, env.cleanup_capture_stop, ?_⟩, ?_⟩
    · simp [library_calls, is_library_call]
    · simp [library_calls, is_library_call]
  · have heq : cam = camera := by
      rw [hm, emit_trace] at hnew
      rcases List.mem_append.mp hnew with h | h
      · have := early_camera_new env _ (hpre _ h).1 guid camera rfl
        rw [hcam] at this
        exact Option.some.inj this
      · exact absurd h (hsave vm)
    subst heq
    by_cases hf : env.fopen = true
    · have hcode : code = 0 := by
        rw [hm, main_save_done _ _ _ _ hf] at hexit
        exact (Status.exit.inj hexit).symm
      subst hcode
      rw [hm, emit_trace, library_calls_append, List.count_append,
        early_no_camera_free env cam pre (fun e he => (hpre e he).1),
        main_save_done _ _ _ _ hf]
      refine ⟨⟨library_calls pre ++ [.dc1394_get_image_size_from_video_mode cam vm
          env.dc1394_get_image_size_from_video_mode.1
          (env.dc1394_get_image_size_from_video_mode.2.1 % 4294967296)
          (env.dc1394_get_image_size_from_video_mode.2.2 % 4294967296)],
        env.close_transmission, env.dc1394_capture_stop, ?_⟩, ?_⟩
      · simp [library_calls, is_library_call]
      · simp [library_calls, is_library_call]
    · simp only [Bool.not_eq_true] at hf
      have hcode : code = 1 := by
        rw [hm, main_save_failed _ _ _ _ hf] at hexit
        exact (Status.exit.inj hexit).symm
      subst hcode
      rw [hm, emit_trace, library_calls_append, List.count_append,
        early_no_camera_free env cam pre (fun e he => (hpre e he).1),
        main_save_failed _ _ _ _ hf, emit_trace, cleanup_trace]
      refine ⟨⟨library_calls pre, env.cleanup_transmission, env.cleanup_capture_stop, ?_⟩, ?_⟩
      · simp [library_calls, is_library_call]
      · simp [library_calls, is_library_call]

/-- Witness of C6 (amended): the successful run `env_ok` creates the camera,
returns 0, and its library calls end with the three releasing calls
followed by `dc1394_free`. -/
theorem camera_released_on_exit_witness :
    ⟨65, .dc1394_camera_new 2989 (some ⟨2989⟩)⟩ ∈ (main env_ok).trace ∧
    (main env_ok).status = .exit 0 ∧
    (∃ pre r1 r2, library_calls (main env_ok).trace =
        pre ++ [.dc1394_video_set_transmission ⟨2989⟩ DC1394_OFF r1,
                .dc1394_capture_stop ⟨2989⟩ r2,
                .dc1394_camera_free ⟨2989⟩] ++ [.dc1394_free]) ∧
    (library_calls (main env_ok).trace).count (.dc1394_camera_free ⟨2989⟩) = 1 :=
  have hnew : ⟨65, .dc1394_camera_new 2989 (some ⟨2989⟩)⟩ ∈ (main env_ok).trace := by
    simp [main, env_ok, emit]
  have hexit : (main env_ok).status = .exit 0 := by
    simp [main, env_ok, emit, Run.andThen, select_mode, uint32_pred, to_int, Run.emitThen,
      main_after_select, main_setup, main_capture, main_after_wait, main_save, wait_transmission]
  ⟨hnew, hexit, camera_released_on_exit env_ok 2989 ⟨2989⟩ 0 hnew hexit⟩

/-- Counterexample to C6 as stated: the successful run `env_ok` creates the
camera and returns normally, yet its last library call is `dc1394_free`,
so the library calls do not end with the three releasing calls. -/
theorem camera_release_counterexample :
    ⟨65, .dc1394_camera_new 2989 (some ⟨2989⟩)⟩ ∈ (main env_ok).trace ∧
    (main env_ok).status = .exit 0 ∧
    (library_calls (main env_ok).trace).getLast? = some .dc1394_free ∧
    ¬ ∃ pre r1 r2, library_calls (main env_ok).trace =
        pre ++ [.dc1394_video_set_transmission ⟨2989⟩ DC1394_OFF r1,
                .dc1394_capture_stop ⟨2989⟩ r2,
                .dc1394_camera_free ⟨2989⟩] := by
  have hlast : (library_calls (main env_ok).trace).getLast? = some .dc1394_free := by
    simp [main, env_ok, emit, Run.andThen, select_mode, uint32_pred, to_int, Run.emitThen,
      main_after_select, main_setup, main_capture, main_after_wait, main_save, wait_transmission,
      library_calls, is_library_call]
  refine ⟨?_, ?_, hlast, ?_⟩
  · simp [main, env_ok, emit]
  · simp [main, env_ok, emit, Run.andThen, select_mode, uint32_pred, to_int, Run.emitThen,
      main_after_select, main_setup, main_capture, main_after_wait, main_save, wait_transmission]
  · rintro ⟨pre, r1, r2, h⟩
    rw [h] at hlast
    simp at hlast

theorem poll_events_count (camera : dc1394camera_t)
    (polls : List (dc1394error_t × dc1394switch_t)) :
    (polls.flatMap (poll_events camera)).countP (fun e => e.line = 159) = polls.length ∧
    (polls.flatMap (poll_events camera)).countP (fun e => e.line = 158) = polls.length := by
  induction polls with
  | nil => simp
  | cons p ps ih =>
    simp only [List.flatMap_cons, List.countP_append, ih.1, ih.2, List.length_cons]
    simp [poll_events, List.countP_cons, Nat.add_comm]

/-- C7. The wait loop of `main` (started with `status = DC1394_OFF`, `i = 0`)
always ends: it makes at most 5 polls, its trace is one `usleep(50000)`
before each `dc1394_video_get_transmission` call (followed, when the last
poll failed, by the error message and `cleanup_and_exit`), and every poll
but the last one succeeded and reported `DC1394_OFF`: polling stops at the
first poll that fails or reports another status. -/
theorem wait_loop_bounded (env : Env) (camera : dc1394camera_t) :
    ∃ polls : List (dc1394error_t × dc1394switch_t),
      polls.length ≤ 5 ∧
      (∀ p ∈ polls.dropLast, p = (DC1394_SUCCESS, DC1394_OFF)) ∧
      (((wait_transmission env camera DC1394_OFF 0).next = .error (.exit 1) ∧
          (wait_transmission env camera DC1394_OFF 0).trace =
            polls.flatMap (fun p => [⟨158, .usleep 50000⟩,
              ⟨159, .dc1394_video_get_transmission camera p.1 p.2⟩]) ++
            ⟨160, .fprintf .stderr "unable to get transmision status\n"⟩ ::
              (cleanup_and_exit env camera).trace ∧
          ∃ p, polls.getLast? = some p ∧ p.1 ≠ DC1394_SUCCESS) ∨
       (∃ s j, (wait_transmission env camera DC1394_OFF 0).next = .ok (s, j) ∧
          (wait_transmission env camera DC1394_OFF 0).trace =
            polls.flatMap (fun p => [⟨158, .usleep 50000⟩,
              ⟨159, .dc1394_video_get_transmission camera p.1 p.2⟩]) ∧
          (∀ p ∈ polls, p.1 = DC1394_SUCCESS))) ∧
      (wait_transmission env camera DC1394_OFF 0).trace.countP (fun e => e.line = 159) =
        polls.length ∧
      (wait_transmission env camera DC1394_OFF 0).trace.countP (fun e => e.line = 158) =
        polls.length := by
  obtain ⟨polls, hlen, -, hpre, h⟩ := wait_transmission_spec env camera DC1394_OFF 0
  have hc := poll_events_count camera polls
  refine ⟨polls, by simpa using hlen, hpre, ?_, ?_, ?_⟩
  · rcases h with ⟨h1, h2, h3⟩ | ⟨s, j, h1, h2, h3, -⟩
    · exact Or.inl ⟨h1, h2, h3⟩
    · exact Or.inr ⟨s, j, h1, h2, h3⟩
  · rcases h with ⟨-, h2, -⟩ | ⟨s, j, -, h2, -⟩
    · rw [h2, List.countP_append, hc.1]
      simp [poll_failure_events, cleanup_and_exit, List.countP_cons]
    · rw [h2, hc.1]
  · rcases h with ⟨-, h2, -⟩ | ⟨s, j, -, h2, -⟩
    · rw [h2, List.countP_append, hc.2]
      simp [poll_failure_events, cleanup_and_exit, List.countP_cons]
    · rw [h2, hc.2]

/-- C4, evaluated at the failing input: when all five polls succeed and
report `DC1394_OFF`, the loop leaves `i = 6`, the test `i == 5` fails, the
diagnostic is not printed, and `main` dequeues a frame, writes the file and
returns 0. -/
theorem never_on_still_captures :
    (wait_transmission env_never_on ⟨2989⟩ DC1394_OFF 0).next = .ok (DC1394_OFF, 6) ∧
    (wait_transmission env_never_on ⟨2989⟩ DC1394_OFF 0).trace.countP
      (fun e => e.line = 159) = 5 ∧
    ⟨174, .dc1394_capture_dequeue ⟨2989⟩ DC1394_CAPTURE_POLICY_WAIT DC1394_SUCCESS⟩ ∈
      (main env_never_on).trace ∧
    ⟨190, .fopen "image.pgm" "wb" true⟩ ∈ (main env_never_on).trace ∧
    ⟨166, .fprintf .stderr "Camera doesn\x27t seem to want to turn on!\n"⟩ ∉
      (main env_never_on).trace ∧
    (main env_never_on).status = .exit 0 := by
  refine ⟨?_, ?_, ?_, ?_, ?_, ?_⟩ <;>
  simp [main, env_never_on, env_ok, emit, Run.andThen, select_mode, uint32_pred, to_int,
    Run.emitThen, main_after_select, main_setup, main_capture, main_after_wait, main_save,
    wait_transmission, List.countP_cons]

/-- C8, evaluated at the failing input: when the transmission is first
reported on at the fifth poll, the loop leaves `i = 5`, and `main` prints the
diagnostic and exits with status 1 without dequeuing a frame. -/
theorem on_at_fifth_poll_gives_up :
    (wait_transmission env_on_fifth ⟨2989⟩ DC1394_OFF 0).next = .ok (DC1394_ON, 5) ∧
    ⟨159, .dc1394_video_get_transmission ⟨2989⟩ DC1394_SUCCESS DC1394_ON⟩ ∈
      (main env_on_fifth).trace ∧
    ⟨166, .fprintf .stderr "Camera doesn\x27t seem to want to turn on!\n"⟩ ∈
      (main env_on_fifth).trace ∧
    (∀ e ∈ (main env_on_fifth).trace, e.line ≠ 174) ∧
    (main env_on_fifth).status = .exit 1 := by
  refine ⟨?_, ?_, ?_, ?_, ?_⟩ <;>
  simp [main, env_on_fifth, env_ok, emit, Run.andThen, select_mode, uint32_pred, to_int,
    Run.emitThen, main_after_select, main_setup, main_capture, main_after_wait, main_save,
    wait_transmission, cleanup_and_exit]

/-- C10, evaluated at the failing input: when the library reports success
with `num = 0`, the index `num - 1` is 4294967295, which is not below `num`
and lies outside the array: the read is undefined behaviour. -/
theorem no_framerate_reads_out_of_bounds :
    env_no_framerates.dc1394_video_get_supported_framerates.1 = DC1394_SUCCESS ∧
    uint32_pred env_no_framerates.dc1394_video_get_supported_framerates.2.num = 4294967295 ∧
    ¬ (uint32_pred env_no_framerates.dc1394_video_get_supported_framerates.2.num <
        env_no_framerates.dc1394_video_get_supported_framerates.2.num) ∧
    env_no_framerates.dc1394_video_get_supported_framerates.2.framerates[
      uint32_pred env_no_framerates.dc1394_video_get_supported_framerates.2.num]? = none ∧
    ⟨107, .dc1394_video_get_supported_framerates ⟨2989⟩ 69 DC1394_SUCCESS⟩ ∈
      (main env_no_framerates).trace ∧
    (main env_no_framerates).status = .undefined := by
  refine ⟨rfl, by decide, by decide, by decide, ?_, ?_⟩ <;>
  simp [main, env_no_framerates, env_ok, emit, Run.andThen, select_mode, uint32_pred, to_int,
    Run.emitThen, main_after_select, main_setup]

theorem to_int_pred (n : Nat) (h : n < 2147483648) : to_int (uint32_pred n) = (n : Int) - 1 := by
  unfold to_int uint32_pred
  split_ifs <;> omega

theorem select_mode_scan (env : Env) (camera : dc1394camera_t)
    (video_modes : dc1394video_modes_t) (video_mode : dc1394video_mode_t) (n : Nat)
    (hn : n ≤ video_modes.modes.length) :
    (∀ j, j < n → mono8_candidate env video_modes j →
        (∀ k, j < k → k < n → ¬ mono8_candidate env video_modes k) →
        ∃ m, video_modes.modes[j]? = some m ∧
          (select_mode env camera video_modes video_mode ((n : Int) - 1)).next
            = .ok ((j : Int), m)) ∧
    ((∀ j, j < n → ¬ mono8_candidate env video_modes j) →
        (select_mode env camera video_modes video_mode ((n : Int) - 1)).next
          = .ok (-1, video_mode)) := by
  induction n with
  | zero =>
    refine ⟨fun j hj => absurd hj (Nat.not_lt_zero j), fun _ => ?_⟩
    rw [select_mode]
    simp
  | succ n ih =>
    have hi : (((n + 1 : Nat) : Int)) - 1 = (n : Int) := by push_cast; ring
    have hlt : n < video_modes.modes.length := hn
    obtain ⟨m, hm⟩ : ∃ m, video_modes.modes[n]? = some m :=
      ⟨video_modes.modes[n], List.getElem?_eq_getElem hlt⟩
    obtain ⟨ih1, ih2⟩ := ih (Nat.le_of_lt hlt)
    rw [hi, select_mode]
    simp only [Int.natCast_nonneg, if_true, Int.toNat_ofNat, hm]
    by_cases hc : mono8_candidate env video_modes n
    · obtain ⟨m', hm', hs, hcod⟩ := hc
      rw [hm] at hm'
      cases hm'
      simp only [hs, Bool.not_false, if_true, hcod]
      constructor
      · intro j hj hcand hmax
        rcases Nat.lt_succ_iff_lt_or_eq.mp hj with hjn | rfl
        · exact absurd ⟨m, hm, hs, hcod⟩ (hmax n hjn (Nat.lt_succ_self n))
        · exact ⟨m, hm, rfl⟩
      · intro hnone
        exact absurd ⟨m, hm, hs, hcod⟩ (hnone n (Nat.lt_succ_self n))
    · have hnext : (if (!env.dc1394_is_video_mode_scalable m) = true then
          if (env.select_color_coding (n : Int)).2 = DC1394_COLOR_CODING_MONO8 then
            (⟨[⟨87, .dc1394_is_video_mode_scalable m false⟩,
              ⟨88, .dc1394_get_color_coding_from_video_mode camera m
                (env.select_color_coding (n : Int)).1 (env.select_color_coding (n : Int)).2⟩],
              .ok ((n : Int), m)⟩ : Run (Int × dc1394video_mode_t))
          else
            Run.emitThen
              [⟨87, .dc1394_is_video_mode_scalable m false⟩,
               ⟨88, .dc1394_get_color_coding_from_video_mode camera m
                  (env.select_color_coding (n : Int)).1 (env.select_color_coding (n : Int)).2⟩]
              (select_mode env camera video_modes video_mode ((n : Int) - 1))
        else
          Run.emitThen [⟨87, .dc1394_is_video_mode_scalable m true⟩]
            (select_mode env camera video_modes video_mode ((n : Int) - 1))).next =
          (select_mode env camera video_modes video_mode ((n : Int) - 1)).next := by
        by_cases hs : env.dc1394_is_video_mode_scalable m = true
        · simp [hs]
        · simp only [Bool.not_eq_true] at hs
          have hcod : (env.select_color_coding (n : Int)).2 ≠ DC1394_COLOR_CODING_MONO8 :=
            fun h => hc ⟨m, hm, hs, h⟩
          simp [hs, hcod]
      rw [hnext]
      constructor
      · intro j hj hcand hmax
        rcases Nat.lt_succ_iff_lt_or_eq.mp hj with hjn | rfl
        · exact ih1 j hjn hcand (fun k hjk hkn => hmax k hjk (Nat.lt_succ_of_lt hkn))
        · exact absurd hcand hc
      · intro hnone
        exact ih2 (fun j hj => hnone j (Nat.lt_succ_of_lt hj))

/-- What `main` does once the camera is open and the mode list is there. -/
theorem main_reaches_selection (env : Env) (camera : dc1394camera_t) (id0 : dc1394camera_id_t)
    (h1 : env.dc1394_camera_enumerate.1 = DC1394_SUCCESS)
    (h2 : env.dc1394_camera_enumerate.2.num ≠ 0)
    (h3 : env.dc1394_camera_enumerate.2.ids[0]? = some id0)
    (h4 : env.dc1394_camera_new = some camera)
    (h5 : env.dc1394_video_get_supported_modes.1 = DC1394_SUCCESS) :
    main env =
      emit [⟨54, .dc1394_new⟩, ⟨55, .dc1394_camera_enumerate DC1394_SUCCESS⟩,
            ⟨65, .dc1394_camera_new id0.guid (some camera)⟩,
            ⟨71, .dc1394_camera_free_list⟩,
            ⟨73, .printf ("Using camera with GUID " ++ hex camera.guid ++ "\n")⟩,
            ⟨80, .dc1394_video_get_supported_modes camera DC1394_SUCCESS⟩]
        ((select_mode env camera env.dc1394_video_get_supported_modes.2 0
            (to_int (uint32_pred env.dc1394_video_get_supported_modes.2.num))).andThen
          (main_after_select env camera)) := by
  unfold main
  rw [if_neg (not_not.mpr h1), if_neg h2, h3, h4]
  dsimp only
  rw [if_neg (not_not.mpr h5), h1, h5, emit_emit, emit_emit]
  rfl

/-- C9. Let the camera be open and the mode list be there, a list of `num`
entries with `num` below `2^31`. If `j` is the greatest index whose entry is
a non-scalable mode reported as 8-bit grey, the selection loop leaves
`i = j` and `video_mode = modes[j]`, and `main` goes on with that mode. If
there is no such index (also when `num = 0`), `main` prints
`Could not get a valid MONO8 mode`, runs `cleanup_and_exit`, ends with
status 1, and makes no call from line 100 on: the capture is not
configured. -/
theorem mode_selection (env : Env) (camera : dc1394camera_t) (id0 : dc1394camera_id_t)
    (h1 : env.dc1394_camera_enumerate.1 = DC1394_SUCCESS)
    (h2 : env.dc1394_camera_enumerate.2.num ≠ 0)
    (h3 : env.dc1394_camera_enumerate.2.ids[0]? = some id0)
    (h4 : env.dc1394_camera_new = some camera)
    (h5 : env.dc1394_video_get_supported_modes.1 = DC1394_SUCCESS)
    (h6 : env.dc1394_video_get_supported_modes.2.num ≤
          env.dc1394_video_get_supported_modes.2.modes.length)
    (h7 : env.dc1394_video_get_supported_modes.2.num < 2147483648) :
    (∀ j, j < env.dc1394_video_get_supported_modes.2.num →
        mono8_candidate env env.dc1394_video_get_supported_modes.2 j →
        (∀ k, j < k → k < env.dc1394_video_get_supported_modes.2.num →
          ¬ mono8_candidate env env.dc1394_video_get_supported_modes.2 k) →
        ∃ m pre, env.dc1394_video_get_supported_modes.2.modes[j]? = some m ∧
          (select_mode env camera env.dc1394_video_get_supported_modes.2 0
            (to_int (uint32_pred env.dc1394_video_get_supported_modes.2.num))).next
            = .ok ((j : Int), m) ∧
          main env = emit pre (main_setup env camera m)) ∧
    ((∀ j, j < env.dc1394_video_get_supported_modes.2.num →
        ¬ mono8_candidate env env.dc1394_video_get_supported_modes.2 j) →
        (main env).status = .exit 1 ∧
        (∃ pre, (main env).trace =
          pre ++ ⟨96, .fprintf .stderr "Could not get a valid MONO8 mode\n"⟩ ::
            (cleanup_and_exit env camera).trace) ∧
        ∀ e ∈ (main env).trace, e.line < 100) := by
  have hmain := main_reaches_selection env camera id0 h1 h2 h3 h4 h5
  have hscan := select_mode_scan env camera env.dc1394_video_get_supported_modes.2 0
    env.dc1394_video_get_supported_modes.2.num h6
  rw [← to_int_pred _ h7] at hscan
  have hev := select_mode_events env camera env.dc1394_video_get_supported_modes.2 0
    (to_int (uint32_pred env.dc1394_video_get_supported_modes.2.num))
  generalize select_mode env camera env.dc1394_video_get_supported_modes.2 0
    (to_int (uint32_pred env.dc1394_video_get_supported_modes.2.num)) = sel at hmain hscan hev ⊢
  constructor
  · intro j hj hcand hmax
    obtain ⟨m, hm, hnext⟩ := hscan.1 j hj hcand hmax
    have hgo : main env = emit ([⟨54, .dc1394_new⟩,
        ⟨55, .dc1394_camera_enumerate DC1394_SUCCESS⟩,
        ⟨65, .dc1394_camera_new id0.guid (some camera)⟩,
        ⟨71, .dc1394_camera_free_list⟩,
        ⟨73, .printf ("Using camera with GUID " ++ hex camera.guid ++ "\n")⟩,
        ⟨80, .dc1394_video_get_supported_modes camera DC1394_SUCCESS⟩] ++ sel.trace)
        (main_setup env camera m) := by
      rw [hmain, andThen_ok _ _ _ hnext, emit_emit]
      unfold main_after_select
      rw [if_neg (by simp)]
    exact ⟨m, _, hm, hnext, hgo⟩
  · intro hnone
    have hnext := hscan.2 hnone
    rw [hmain, andThen_ok _ _ _ hnext, emit_emit]
    unfold main_after_select
    rw [if_pos (by decide), emit_emit]
    refine ⟨rfl, ⟨_, by rw [emit_trace, List.append_assoc]; rfl⟩, ?_⟩
    intro e he
    rw [emit_trace, cleanup_trace] at he
    simp only [List.mem_append, List.mem_cons, List.mem_singleton, List.not_mem_nil,
      or_false, or_assoc] at he
    rcases he with rfl | rfl | rfl | rfl | rfl | rfl | he | rfl | rfl | rfl | rfl
    all_goals first
      | (rcases hev e he with ⟨_, _, rfl⟩ | ⟨_, _, _, rfl⟩ <;> simp)
      | simp

/-- Witness of C9: in `env_ok` the list is `[64, 69, 88]`; entry 2 is
scalable, entry 1 is the greatest 8-bit grey candidate, and `main` goes on
with mode 69. In `env_no_mono8` no entry is a candidate and `main` ends
with status 1. -/
theorem mode_selection_witness :
    (mono8_candidate env_ok env_ok.dc1394_video_get_supported_modes.2 1 ∧
      ∃ m pre, env_ok.dc1394_video_get_supported_modes.2.modes[1]? = some m ∧ m = 69 ∧
        (select_mode env_ok ⟨2989⟩ env_ok.dc1394_video_get_supported_modes.2 0
          (to_int (uint32_pred env_ok.dc1394_video_get_supported_modes.2.num))).next
          = .ok (((1 : Nat) : Int), m) ∧
        main env_ok = emit pre (main_setup env_ok ⟨2989⟩ m)) ∧
    ((∀ j, j < env_no_mono8.dc1394_video_get_supported_modes.2.num →
        ¬ mono8_candidate env_no_mono8 env_no_mono8.dc1394_video_get_supported_modes.2 j) ∧
      (main env_no_mono8).status = .exit 1 ∧
      ∀ e ∈ (main env_no_mono8).trace, e.line < 100) :=
  have hc : mono8_candidate env_ok env_ok.dc1394_video_get_supported_modes.2 1 :=
    ⟨69, by decide, by decide, by decide⟩
  have hmax : ∀ k, 1 < k → k < env_ok.dc1394_video_get_supported_modes.2.num →
      ¬ mono8_candidate env_ok env_ok.dc1394_video_get_supported_modes.2 k := by
    intro k h1 h2 ⟨m, hm, hs, _⟩
    have hk : k = 2 := by
      have : k < 3 := h2
      omega
    subst hk
    have : m = 88 := by
      have h88 : env_ok.dc1394_video_get_supported_modes.2.modes[2]? = some 88 := by decide
      rw [h88] at hm
      exact (Option.some.inj hm).symm
    subst this
    revert hs
    decide
  have h := (mode_selection env_ok ⟨2989⟩ ⟨2989⟩ rfl (by decide) (by decide) rfl rfl
    (by decide) (by decide)).1 1 (by decide) hc hmax
  have hnone : ∀ j, j < env_no_mono8.dc1394_video_get_supported_modes.2.num →
      ¬ mono8_candidate env_no_mono8 env_no_mono8.dc1394_video_get_supported_modes.2 j := by
    intro j _ ⟨m, _, _, hcod⟩
    simp [env_no_mono8] at hcod
  have h' := (mode_selection env_no_mono8 ⟨2989⟩ ⟨2989⟩ rfl (by decide) (by decide) rfl rfl
    (by decide) (by decide)).2 hnone
  ⟨⟨hc, by
    obtain ⟨m, pre, hm, hnext, hgo⟩ := h
    have h69 : m = 69 := by
      have h' : env_ok.dc1394_video_get_supported_modes.2.modes[1]? = some 69 := by decide
      rw [h'] at hm
      exact (Option.some.inj hm).symm
    exact ⟨m, pre, hm, h69, hnext, hgo⟩⟩, hnone, h'.1, h'.2.2⟩
end GrabGrayImage
